import Mathlib

/-!
Verification development for the api-battle-healer self-healing HTTP client.

The TypeScript sources are embedded shallowly:

* JSON values are the inductive `Json`; JavaScript objects are association
  lists in insertion order (`setField` replaces in place, appends when new,
  matching JS property update semantics).
* Effectful functions (`smartFetch`, `runHealingAgent`, the toolkit) are
  embedded as pure functions over an explicit environment of oracles: one
  oracle value per external interaction (HTTP response of the n-th attempt,
  token refresher result, mock collaborator response, clock reading).
  Sleeps and log side effects carry no observable state and are omitted.
* Machine integers are `Nat`/`Int`; `Date.now()` readings are `Int`.
-/

/-- JSON-like runtime values (`unknown` payloads in the TypeScript source).
Objects are association lists in insertion order. -/
inductive Json where
  | null : Json
  | bool : Bool → Json
  | num : Int → Json
  | str : String → Json
  | arr : List Json → Json
  | obj : List (String × Json) → Json
deriving Repr

namespace Json

mutual

/-- Boolean equality on `Json` (structural). -/
def beq : Json → Json → Bool
  | .null, .null => true
  | .bool a, .bool b => a == b
  | .num a, .num b => a == b
  | .str a, .str b => a == b
  | .arr xs, .arr ys => beqL xs ys
  | .obj fs, .obj gs => beqF fs gs
  | _, _ => false

/-- Boolean equality on `Json` lists. -/
def beqL : List Json → List Json → Bool
  | [], [] => true
  | x :: xs, y :: ys => beq x y && beqL xs ys
  | _, _ => false

/-- Boolean equality on `Json` object field lists. -/
def beqF : List (String × Json) → List (String × Json) → Bool
  | [], [] => true
  | (k, v) :: fs, (l, w) :: gs => k == l && beq v w && beqF fs gs
  | _, _ => false

end

mutual

theorem beq_iff : ∀ a b : Json, beq a b = true ↔ a = b
  | .null, .null => by simp [beq]
  | .bool a, .bool b => by simp [beq]
  | .num a, .num b => by simp [beq]
  | .str a, .str b => by simp [beq]
  | .arr xs, .arr ys => by simp [beq, beqL_iff xs ys]
  | .obj fs, .obj gs => by simp [beq, beqF_iff fs gs]
  | .null, .bool _ | .null, .num _ | .null, .str _ | .null, .arr _
  | .null, .obj _ | .bool _, .null | .bool _, .num _ | .bool _, .str _
  | .bool _, .arr _ | .bool _, .obj _ | .num _, .null | .num _, .bool _
  | .num _, .str _ | .num _, .arr _ | .num _, .obj _ | .str _, .null
  | .str _, .bool _ | .str _, .num _ | .str _, .arr _ | .str _, .obj _
  | .arr _, .null | .arr _, .bool _ | .arr _, .num _ | .arr _, .str _
  | .arr _, .obj _ | .obj _, .null | .obj _, .bool _ | .obj _, .num _
  | .obj _, .str _ | .obj _, .arr _ => by simp [beq]

theorem beqL_iff : ∀ xs ys : List Json, beqL xs ys = true ↔ xs = ys
  | [], [] => by simp [beqL]
  | x :: xs, y :: ys => by
    simp [beqL, beq_iff x y, beqL_iff xs ys]
  | [], _ :: _ => by simp [beqL]
  | _ :: _, [] => by simp [beqL]

theorem beqF_iff :
    ∀ fs gs : List (String × Json), beqF fs gs = true ↔ fs = gs
  | [], [] => by simp [beqF]
  | (k, v) :: fs, (l, w) :: gs => by
    simp [beqF, beq_iff v w, beqF_iff fs gs, Prod.ext_iff, and_assoc]
  | [], _ :: _ => by simp [beqF]
  | _ :: _, [] => by simp [beqF]

end

instance : DecidableEq Json := fun a b =>
  decidable_of_iff (beq a b = true) (beq_iff a b)

/-- JS property read `o[k]` on an object field list: first entry wins. -/
def getField (o : List (String × Json)) (k : String) : Option Json :=
  (o.find? (fun p => p.1 = k)).map (fun p => p.2)

/-- JS property write `o[k] = v`: replaces every entry stored under `k`
(keeping its position), appends when the key is absent. -/
def setField (o : List (String × Json)) (k : String) (v : Json) :
    List (String × Json) :=
  if o.any (fun p => p.1 = k) then
    o.map (fun p => if p.1 = k then (k, v) else p)
  else
    o ++ [(k, v)]

/-- JS truthiness of a value (`null`, `false`, `0`, `""` are falsy). -/
def truthy : Json → Bool
  | .null => false
  | .bool b => b
  | .num n => n ≠ 0
  | .str s => s ≠ ""
  | .arr _ => true
  | .obj _ => true

end Json

/-! ## Kernel-computable string primitives

`String.toLowerCase`, `toUpperCase`, `trim`, `startsWith` and `endsWith`
from JS are embedded with character-list implementations (the library's
byte-position based versions do not reduce inside the kernel): ASCII case
mapping suffices for the header names, endpoints and markers this
repository compares. -/

/-- ASCII lower-casing of one character. -/
def asciiLowerChar (c : Char) : Char :=
  if 65 ≤ c.toNat ∧ c.toNat ≤ 90 then Char.ofNat (c.toNat + 32) else c

/-- JS `toLowerCase` (ASCII range). -/
def asciiLower (s : String) : String :=
  ⟨s.data.map asciiLowerChar⟩

/-- ASCII upper-casing of one character. -/
def asciiUpperChar (c : Char) : Char :=
  if 97 ≤ c.toNat ∧ c.toNat ≤ 122 then Char.ofNat (c.toNat - 32) else c

/-- JS `toUpperCase` (ASCII range). -/
def asciiUpper (s : String) : String :=
  ⟨s.data.map asciiUpperChar⟩

/-- JS `startsWith` / the anchored regex test. -/
def strIsPrefixOf (p s : String) : Bool := p.data.isPrefixOf s.data

/-- JS `endsWith`. -/
def strEndsWith (s suffixStr : String) : Bool :=
  suffixStr.data.isSuffixOf s.data

/-- JS `trim`. -/
def strTrim (s : String) : String :=
  ⟨((s.data.dropWhile Char.isWhitespace).reverse.dropWhile
    Char.isWhitespace).reverse⟩

/-! ## Transport retry codes (src/smartFetch.ts)

`DEFAULT_RETRY_CODES` is built by seeding `{410, 429}` and adding every
status from 500 to 599; `isRetryable` additionally treats any missing or
falsy (zero) status, and any 5xx status, as retryable. -/

/-- `DEFAULT_RETRY_CODES` from src/smartFetch.ts. -/
def DEFAULT_RETRY_CODES : List Nat :=
  [410, 429] ++ List.range' 500 100

/-- `isRetryable(status, retryCodes)` from src/smartFetch.ts. A missing
status (network error) or a falsy status code is retryable; otherwise the
status must be in the configured set or in 500..599. -/
def isRetryable (status : Option Nat) (retryCodes : List Nat) : Bool :=
  match status with
  | none => true
  | some s =>
    if s = 0 then true
    else if retryCodes.contains s then true
    else if 500 ≤ s ∧ s ≤ 599 then true
    else false

/-- The retry-code set actually used when `retryStatusCodes` is not
configured (or empty): `DEFAULT_RETRY_CODES`. -/
def defaultIsRetryable (status : Option Nat) : Bool :=
  isRetryable status DEFAULT_RETRY_CODES

theorem mem_DEFAULT_RETRY_CODES (s : Nat) :
    s ∈ DEFAULT_RETRY_CODES ↔ s = 410 ∨ s = 429 ∨ (500 ≤ s ∧ s ≤ 599) := by
  simp only [DEFAULT_RETRY_CODES, List.mem_append, List.mem_cons,
    List.not_mem_nil, or_false, List.mem_range'_1]
  omega

/-- C5 counterexample: with no configured `retry_status_codes`, status 410
is treated as retryable even though it lies outside `{429} ∪ [500, 599]`,
so the default retryable set is not exactly that set. -/
theorem c5_default_retry_codes_counterexample :
    defaultIsRetryable (some 410) = true ∧
      ¬(410 = 429 ∨ (500 ≤ 410 ∧ 410 ≤ 599)) := by
  constructor
  · rfl
  · decide

/-- C5 (amended): with no configured `retry_status_codes`, a present status
is retryable exactly when it is 410, 429, in 500..599, or the degenerate
falsy status 0 (which `isRetryable` short-circuits on); every other present
status is non-retryable. -/
theorem c5_default_retry_codes_amended (s : Nat) :
    defaultIsRetryable (some s) = true ↔
      s = 0 ∨ s = 410 ∨ s = 429 ∨ (500 ≤ s ∧ s ≤ 599) := by
  have hmem : DEFAULT_RETRY_CODES.contains s = true ↔
      (s = 410 ∨ s = 429 ∨ (500 ≤ s ∧ s ≤ 599)) := by
    rw [List.contains, List.elem_iff]
    exact mem_DEFAULT_RETRY_CODES s
  simp only [defaultIsRetryable, isRetryable]
  split_ifs with h0 hc h5 <;> simp_all

/-! ## SchemaAdapter (src/agent/toolkit.ts, `applySchemaAdaptation`)

`SchemaHints` carries an optional field map (expected → actual) and
optional defaults; both `Record`s are embedded as association lists in
insertion order, matching `Object.entries` iteration. -/

/-- `SchemaHints` from src/agent/types.ts. -/
structure SchemaHints where
  fieldMap : Option (List (String × String)) := none
  defaults : Option (List (String × Json)) := none
deriving Repr, DecidableEq

/-- One `field_map` entry of `applySchemaAdaptation`: if the `actual` key is
present, copy its value to the `expected` key (never deleting the source). -/
def fieldMapStep (o : List (String × Json)) (q : String × String) :
    List (String × Json) :=
  match Json.getField o q.2 with
  | some v => Json.setField o q.1 v
  | none => o

/-- The `Object.entries(fieldMap).forEach` loop of `applySchemaAdaptation`. -/
def applyFieldMap (fm : List (String × String)) (o : List (String × Json)) :
    List (String × Json) :=
  fm.foldl fieldMapStep o

/-- One `defaults` entry of `applySchemaAdaptation`: set the key when it is
currently absent (JS `undefined`). -/
def defaultsStep (o : List (String × Json)) (q : String × Json) :
    List (String × Json) :=
  if (Json.getField o q.1).isSome then o else Json.setField o q.1 q.2

/-- The `Object.entries(defaults).forEach` loop of `applySchemaAdaptation`. -/
def applyDefaults (ds : List (String × Json)) (o : List (String × Json)) :
    List (String × Json) :=
  ds.foldl defaultsStep o

mutual

/-- `applySchemaAdaptation(hints, payload)` from src/agent/toolkit.ts:
missing hints or a null payload are returned unchanged, arrays are mapped
element-wise, non-objects are returned as-is, and objects get the field map
applied and then the defaults filled in. -/
def applySchemaAdaptation (hints : Option SchemaHints) (payload : Json) :
    Json :=
  match hints with
  | none => payload
  | some h =>
    match payload with
    | .null => .null
    | .arr xs => .arr (applySchemaAdaptationL hints xs)
    | .obj fields =>
        .obj (applyDefaults (h.defaults.getD [])
          (applyFieldMap (h.fieldMap.getD []) fields))
    | .bool b => .bool b
    | .num n => .num n
    | .str s => .str s

/-- Element-wise `payload.map((item) => applySchemaAdaptation(hints, item))`
for array payloads. -/
def applySchemaAdaptationL (hints : Option SchemaHints) :
    List Json → List Json
  | [] => []
  | x :: xs =>
      applySchemaAdaptation hints x :: applySchemaAdaptationL hints xs

end

theorem applySchemaAdaptationL_eq_map (hints : Option SchemaHints) :
    ∀ xs : List Json,
      applySchemaAdaptationL hints xs = xs.map (applySchemaAdaptation hints)
  | [] => rfl
  | x :: xs => by
    rw [applySchemaAdaptationL, List.map_cons,
      applySchemaAdaptationL_eq_map hints xs]

theorem applySchemaAdaptation_arr (h : SchemaHints) (xs : List Json) :
    applySchemaAdaptation (some h) (.arr xs) =
      .arr (xs.map (applySchemaAdaptation (some h))) := by
  rw [applySchemaAdaptation, applySchemaAdaptationL_eq_map]

/-! ### Association-list lemmas for the adapter proofs -/

/-- Every entry stored under `k` has value `v`, and at least one exists. -/
def allEq (o : List (String × Json)) (k : String) (v : Json) : Prop :=
  (∃ p ∈ o, p.1 = k) ∧ ∀ p ∈ o, p.1 = k → p.2 = v

theorem find?_map_set_self {o : List (String × Json)} {k : String}
    (v : Json) (hany : (o.any fun p => p.1 = k) = true) :
    (o.map fun p => if p.1 = k then (k, v) else p).find?
      (fun p => p.1 = k) = some (k, v) := by
  induction o with
  | nil => simp at hany
  | cons p o ih =>
    by_cases hp : p.1 = k
    · rw [List.map_cons, if_pos hp, List.find?_cons_of_pos _ (by simp)]
    · have h' : (o.any fun p => p.1 = k) = true := by
        simpa [hp] using hany
      rw [List.map_cons, if_neg hp,
        List.find?_cons_of_neg _ (by simpa using hp), ih h']

theorem find?_map_set_ne {o : List (String × Json)} {k k' : String}
    (v : Json) (h : k' ≠ k) :
    (o.map fun p => if p.1 = k then (k, v) else p).find?
      (fun p => p.1 = k') = ((o.find? fun p => p.1 = k').map
        fun p => if p.1 = k then (k, v) else p) := by
  induction o with
  | nil => simp
  | cons p o ih =>
    by_cases hp' : p.1 = k'
    · have hpk : ¬p.1 = k := fun hk => h (hp' ▸ hk ▸ rfl)
      rw [List.map_cons, if_neg hpk,
        List.find?_cons_of_pos _ (by simpa using hp'),
        List.find?_cons_of_pos _ (by simpa using hp'), Option.map_some',
        if_neg hpk]
    · by_cases hpk : p.1 = k
      · rw [List.map_cons, if_pos hpk,
          List.find?_cons_of_neg _ (by simpa using Ne.symm h),
          List.find?_cons_of_neg _ (by simpa using hp'), ih]
      · rw [List.map_cons, if_neg hpk,
          List.find?_cons_of_neg _ (by simpa using hp'),
          List.find?_cons_of_neg _ (by simpa using hp'), ih]

theorem find?_eq_none_of_not_any {o : List (String × Json)} {k : String}
    (hany : ¬(o.any fun p => p.1 = k) = true) :
    (o.find? fun p => p.1 = k) = none := by
  rw [List.find?_eq_none]
  intro p hp hk
  exact hany (List.any_eq_true.mpr ⟨p, hp, hk⟩)

theorem getField_setField_self (o : List (String × Json)) (k : String)
    (v : Json) : Json.getField (Json.setField o k v) k = some v := by
  rw [Json.setField]
  split
  · rename_i hany
    rw [Json.getField, find?_map_set_self v hany, Option.map_some']
  · rename_i hany
    rw [Json.getField, List.find?_append, find?_eq_none_of_not_any hany,
      Option.none_or, List.find?_cons_of_pos _ (by simp),
      Option.map_some']

theorem getField_setField_ne (o : List (String × Json)) {k k' : String}
    (v : Json) (h : k' ≠ k) :
    Json.getField (Json.setField o k v) k' = Json.getField o k' := by
  rw [Json.setField]
  split
  · rw [Json.getField, find?_map_set_ne v h, Json.getField]
    rcases hfind : o.find? fun p => p.1 = k' with _ | p
    · rw [hfind]
      rfl
    · have hp' : p.1 = k' := by simpa using List.find?_some hfind
      have hpk : ¬p.1 = k := fun hk => h (by rw [← hp', hk])
      rw [hfind]
      simp [if_neg hpk]
  · rw [Json.getField, List.find?_append, Json.getField]
    rcases hfind : o.find? fun p => p.1 = k' with _ | p
    · rw [hfind, Option.none_or,
        List.find?_cons_of_neg _ (by simpa using Ne.symm h)]
      rfl
    · rw [hfind]
      rfl

theorem getField_eq_of_allEq {k : String} {v : Json} :
    ∀ {o : List (String × Json)}, allEq o k v → Json.getField o k = some v
  | [], h => by
    obtain ⟨⟨p, hp, _⟩, _⟩ := h
    simp at hp
  | q :: o, h => by
    obtain ⟨⟨p, hp, hk⟩, hall⟩ := h
    by_cases hq : q.1 = k
    · rw [Json.getField, List.find?_cons_of_pos _ (by simpa using hq),
        Option.map_some', hall q (List.mem_cons_self q o) hq]
    · rcases List.mem_cons.mp hp with rfl | hp'
      · exact absurd hk hq
      · rw [Json.getField, List.find?_cons_of_neg _ (by simpa using hq)]
        exact getField_eq_of_allEq ⟨⟨p, hp', hk⟩,
          fun r hr hrk => hall r (List.mem_cons_of_mem _ hr) hrk⟩

theorem exists_key_of_any {o : List (String × Json)} {k : String}
    (hany : (o.any fun p => p.1 = k) = true) : ∃ p ∈ o, p.1 = k := by
  simpa using hany

theorem allEq_setField_self (o : List (String × Json)) (k : String)
    (v : Json) : allEq (Json.setField o k v) k v := by
  rw [Json.setField]
  split
  · rename_i hany
    obtain ⟨p, hp, hk⟩ := exists_key_of_any hany
    refine ⟨⟨(k, v), List.mem_map.mpr ⟨p, hp, by rw [if_pos hk]⟩, rfl⟩, ?_⟩
    intro q hq hqk
    obtain ⟨r, hr, hrq⟩ := List.mem_map.mp hq
    by_cases hrk : r.1 = k
    · rw [if_pos hrk] at hrq
      rw [← hrq]
    · rw [if_neg hrk] at hrq
      exact absurd (hrq ▸ hqk) hrk
  · rename_i hany
    refine ⟨⟨(k, v), List.mem_append_right _ (List.mem_singleton.mpr rfl),
      rfl⟩, ?_⟩
    intro q hq hqk
    rcases List.mem_append.mp hq with hq' | hq'
    · exact absurd (List.any_eq_true.mpr ⟨q, hq', by simpa using hqk⟩) hany
    · rw [List.mem_singleton.mp hq']

theorem allEq_setField_ne {o : List (String × Json)} {k k' : String}
    {v w : Json} (h : k' ≠ k) (ha : allEq o k v) :
    allEq (Json.setField o k' w) k v := by
  obtain ⟨⟨p, hp, hk⟩, hall⟩ := ha
  rw [Json.setField]
  split
  · refine ⟨⟨p, List.mem_map.mpr ⟨p, hp, ?_⟩, hk⟩, ?_⟩
    · rw [if_neg fun hpk' => h (by rw [← hpk', hk])]
    · intro q hq hqk
      obtain ⟨r, hr, hrq⟩ := List.mem_map.mp hq
      by_cases hrk : r.1 = k'
      · rw [if_pos hrk] at hrq
        rw [← hrq] at hqk
        exact absurd hqk h
      · rw [if_neg hrk] at hrq
        exact hall q (hrq ▸ hr) hqk
  · refine ⟨⟨p, List.mem_append_left _ hp, hk⟩, ?_⟩
    intro q hq hqk
    rcases List.mem_append.mp hq with hq' | hq'
    · exact hall q hq' hqk
    · rw [List.mem_singleton.mp hq'] at hqk
      exact absurd hqk h

theorem allEq_fst_eq {o : List (String × Json)} {k : String} {v : Json}
    (ha : allEq o k v) : (Json.getField o k).isSome := by
  rw [getField_eq_of_allEq ha]
  rfl

/-! ### Field-map and defaults fold lemmas -/

theorem getField_fieldMapStep_ne {o : List (String × Json)} {k : String}
    {q : String × String} (h : k ≠ q.1) :
    Json.getField (fieldMapStep o q) k = Json.getField o k := by
  rw [fieldMapStep]
  split
  · exact getField_setField_ne o _ h
  · rfl

theorem getField_applyFieldMap_of_not_mem {k : String} :
    ∀ (fm : List (String × String)) (o : List (String × Json)),
      k ∉ fm.map Prod.fst →
      Json.getField (applyFieldMap fm o) k = Json.getField o k
  | [], o, _ => rfl
  | q :: fm, o, h => by
    have hq : k ≠ q.1 := by
      intro hk
      exact h (by simp [hk])
    rw [applyFieldMap, List.foldl_cons, ← applyFieldMap,
      getField_applyFieldMap_of_not_mem fm _ (fun hm => h (by simp [hm])),
      getField_fieldMapStep_ne hq]

theorem allEq_fieldMapStep_ne {o : List (String × Json)} {k : String}
    {v : Json} {q : String × String} (h : k ≠ q.1) (ha : allEq o k v) :
    allEq (fieldMapStep o q) k v := by
  rw [fieldMapStep]
  split
  · exact allEq_setField_ne (Ne.symm h) ha
  · exact ha

theorem allEq_applyFieldMap_of_not_mem {k : String} {v : Json} :
    ∀ (fm : List (String × String)) (o : List (String × Json)),
      k ∉ fm.map Prod.fst → allEq o k v → allEq (applyFieldMap fm o) k v
  | [], _, _, ha => ha
  | q :: fm, o, h, ha => by
    have hq : k ≠ q.1 := fun hk => h (by simp [hk])
    rw [applyFieldMap, List.foldl_cons, ← applyFieldMap]
    exact allEq_applyFieldMap_of_not_mem fm _ (fun hm => h (by simp [hm]))
      (allEq_fieldMapStep_ne hq ha)

theorem allEq_defaultsStep {o : List (String × Json)} {k : String}
    {v : Json} {q : String × Json} (ha : allEq o k v) :
    allEq (defaultsStep o q) k v := by
  rw [defaultsStep]
  split
  · exact ha
  · rename_i habs
    by_cases hk : k = q.1
    · rw [← hk] at habs
      exact absurd (allEq_fst_eq ha) habs
    · exact allEq_setField_ne (Ne.symm hk) ha

theorem allEq_applyDefaults {k : String} {v : Json} :
    ∀ (ds : List (String × Json)) (o : List (String × Json)),
      allEq o k v → allEq (applyDefaults ds o) k v
  | [], _, ha => ha
  | q :: ds, o, ha => by
    rw [applyDefaults, List.foldl_cons, ← applyDefaults]
    exact allEq_applyDefaults ds _ (allEq_defaultsStep ha)

theorem getField_applyDefaults_of_not_mem {k : String} :
    ∀ (ds : List (String × Json)) (o : List (String × Json)),
      k ∉ ds.map Prod.fst →
      Json.getField (applyDefaults ds o) k = Json.getField o k
  | [], o, _ => rfl
  | q :: ds, o, h => by
    have hq : k ≠ q.1 := fun hk => h (by simp [hk])
    rw [applyDefaults, List.foldl_cons, ← applyDefaults,
      getField_applyDefaults_of_not_mem ds _ (fun hm => h (by simp [hm]))]
    rw [defaultsStep]
    split
    · rfl
    · exact getField_setField_ne o _ hq

theorem isSome_getField_defaultsStep {o : List (String × Json)}
    {k : String} (q : String × Json) (h : (Json.getField o k).isSome) :
    (Json.getField (defaultsStep o q) k).isSome := by
  rw [defaultsStep]
  split
  · exact h
  · by_cases hk : k = q.1
    · rw [hk, getField_setField_self]
      rfl
    · rw [getField_setField_ne o _ hk]
      exact h

theorem isSome_getField_applyDefaults_mono {k : String} :
    ∀ (ds : List (String × Json)) (o : List (String × Json)),
      (Json.getField o k).isSome →
      (Json.getField (applyDefaults ds o) k).isSome
  | [], _, h => h
  | q :: ds, o, h => by
    rw [applyDefaults, List.foldl_cons, ← applyDefaults]
    exact isSome_getField_applyDefaults_mono ds _
      (isSome_getField_defaultsStep q h)

theorem isSome_getField_applyDefaults_self :
    ∀ (ds : List (String × Json)) (o : List (String × Json)) (q : String × Json),
      q ∈ ds → (Json.getField (applyDefaults ds o) q.1).isSome
  | [], _, _, hq => by simp at hq
  | r :: ds, o, q, hq => by
    rw [applyDefaults, List.foldl_cons, ← applyDefaults]
    rcases List.mem_cons.mp hq with rfl | hq'
    · refine isSome_getField_applyDefaults_mono ds _ ?_
      rw [defaultsStep]
      split
      · assumption
      · rw [getField_setField_self]
        rfl
    · exact isSome_getField_applyDefaults_self ds _ q hq'

theorem applyDefaults_eq_self :
    ∀ (ds : List (String × Json)) (o : List (String × Json)),
      (∀ q ∈ ds, (Json.getField o q.1).isSome) → applyDefaults ds o = o
  | [], _, _ => rfl
  | q :: ds, o, h => by
    have hstep : defaultsStep o q = o := by
      rw [defaultsStep, if_pos (h q (List.mem_cons_self q ds))]
    rw [applyDefaults, List.foldl_cons, hstep, ← applyDefaults]
    exact applyDefaults_eq_self ds o
      (fun r hr => h r (List.mem_cons_of_mem _ hr))

theorem setField_eq_self {o : List (String × Json)} {k : String} {v : Json}
    (h : allEq o k v) : Json.setField o k v = o := by
  obtain ⟨⟨p, hp, hk⟩, hall⟩ := h
  rw [Json.setField,
    if_pos (List.any_eq_true.mpr ⟨p, hp, by simpa using hk⟩)]
  conv_rhs => rw [← List.map_id o]
  refine List.map_congr_left fun q hq => ?_
  by_cases hqk : q.1 = k
  · rw [if_pos hqk, id_eq, ← hall q hq hqk, ← hqk]
  · rw [if_neg hqk, id_eq]

theorem foldl_eq_self {α β : Type} (f : α → β → α) (z : α) :
    ∀ l : List β, (∀ q ∈ l, f z q = z) → l.foldl f z = z
  | [], _ => rfl
  | q :: l, h => by
    rw [List.foldl_cons, h q (List.mem_cons_self q l)]
    exact foldl_eq_self f z l fun r hr => h r (List.mem_cons_of_mem _ hr)

theorem allEq_applyFieldMap_of_mem :
    ∀ (fm : List (String × String)) (o : List (String × Json))
      (e a : String) (v : Json), (e, a) ∈ fm →
      (fm.map Prod.fst).Nodup → a ∉ fm.map Prod.fst →
      Json.getField o a = some v → allEq (applyFieldMap fm o) e v
  | [], _, _, _, _, hmem, _, _, _ => by simp at hmem
  | q :: fm, o, e, a, v, hmem, hnd, hna, hget => by
    rw [applyFieldMap, List.foldl_cons, ← applyFieldMap]
    rcases List.mem_cons.mp hmem with rfl | hmem'
    · have hstep : fieldMapStep o (e, a) = Json.setField o e v := by
        rw [fieldMapStep]
        simp only [hget]
      rw [hstep]
      have hnd' : (e :: fm.map Prod.fst).Nodup := by
        rw [List.map_cons] at hnd
        exact hnd
      exact allEq_applyFieldMap_of_not_mem fm _ (List.nodup_cons.mp hnd').1
        (allEq_setField_self o e v)
    · have hq : a ≠ q.1 := fun hk => hna (by simp [hk])
      have hget' : Json.getField (fieldMapStep o q) a = some v := by
        rw [getField_fieldMapStep_ne hq, hget]
      have hnd' : (q.1 :: fm.map Prod.fst).Nodup := by
        rw [List.map_cons] at hnd
        exact hnd
      exact allEq_applyFieldMap_of_mem fm _ e a v hmem'
        (List.nodup_cons.mp hnd').2 (fun hm => hna (by simp [hm])) hget'

theorem adaptFields_idem (fm : List (String × String))
    (ds : List (String × Json)) (o : List (String × Json))
    (h1 : (fm.map Prod.fst).Nodup)
    (h2 : ∀ q ∈ fm, q.2 ∉ fm.map Prod.fst)
    (h3 : ∀ q ∈ fm, q.2 ∉ ds.map Prod.fst) :
    applyDefaults ds (applyFieldMap fm
        (applyDefaults ds (applyFieldMap fm o))) =
      applyDefaults ds (applyFieldMap fm o) := by
  have hfmz : applyFieldMap fm
      (applyDefaults ds (applyFieldMap fm o)) =
        applyDefaults ds (applyFieldMap fm o) := by
    refine foldl_eq_self fieldMapStep _ fm fun q hq => ?_
    have hga : Json.getField (applyDefaults ds (applyFieldMap fm o)) q.2 =
        Json.getField o q.2 := by
      rw [getField_applyDefaults_of_not_mem ds _ (h3 q hq),
        getField_applyFieldMap_of_not_mem fm o (h2 q hq)]
    rcases hgo : Json.getField o q.2 with _ | v
    · rw [fieldMapStep, hga, hgo]
    · have hmem : (q.1, q.2) ∈ fm := by
        rw [Prod.mk.eta]
        exact hq
      have hzeq : allEq (applyDefaults ds (applyFieldMap fm o)) q.1 v :=
        allEq_applyDefaults ds _
          (allEq_applyFieldMap_of_mem fm o q.1 q.2 v hmem h1 (h2 q hq) hgo)
      rw [fieldMapStep, hga, hgo]
      exact setField_eq_self hzeq
  have hdsz : applyDefaults ds
      (applyDefaults ds (applyFieldMap fm o)) =
        applyDefaults ds (applyFieldMap fm o) :=
    applyDefaults_eq_self ds _
      (fun q hq => isSome_getField_applyDefaults_self ds _ q hq)
  rw [hfmz, hdsz]

/-- C3 (amended): `applySchemaAdaptation` is idempotent provided the field
map has pairwise-distinct target (`expected`) keys and none of its source
(`actual`) keys is itself a field-map target or a defaults key. (The
counterexample shows idempotence fails for chained field maps, where one
entry's target serves as another's source.) -/
theorem c3_schema_adapter_idempotent_amended (h : SchemaHints)
    (hnd : ((h.fieldMap.getD []).map Prod.fst).Nodup)
    (hfm : ∀ q ∈ h.fieldMap.getD [], q.2 ∉ (h.fieldMap.getD []).map Prod.fst)
    (hds : ∀ q ∈ h.fieldMap.getD [], q.2 ∉ (h.defaults.getD []).map Prod.fst) :
    ∀ x : Json, applySchemaAdaptation (some h)
      (applySchemaAdaptation (some h) x) = applySchemaAdaptation (some h) x
  | .null => rfl
  | .bool _ => rfl
  | .num _ => rfl
  | .str _ => rfl
  | .arr xs => by
    rw [applySchemaAdaptation_arr, applySchemaAdaptation_arr, List.map_map]
    refine congrArg Json.arr (List.map_congr_left fun x hx => ?_)
    have : sizeOf x < sizeOf (Json.arr xs) := by
      have := List.sizeOf_lt_of_mem hx
      simp only [Json.arr.sizeOf_spec]
      omega
    exact c3_schema_adapter_idempotent_amended h hnd hfm hds x
  | .obj fields => by
    simp only [applySchemaAdaptation]
    exact congrArg Json.obj (adaptFields_idem _ _ fields hnd hfm hds)
termination_by x => sizeOf x

/-- C3 counterexample: with the chained field map `{a ↦ b, b ↦ c}` and the
payload `{b: 1, c: 2}`, applying the SchemaAdapter twice differs from
applying it once (`a` ends at 2 instead of 1), so idempotence fails for
arbitrary schema hints. -/
theorem c3_schema_adapter_idempotent_counterexample :
    applySchemaAdaptation
        (some ⟨some [("a", "b"), ("b", "c")], none⟩)
        (applySchemaAdaptation
          (some ⟨some [("a", "b"), ("b", "c")], none⟩)
          (.obj [("b", .num 1), ("c", .num 2)])) ≠
      applySchemaAdaptation
        (some ⟨some [("a", "b"), ("b", "c")], none⟩)
        (.obj [("b", .num 1), ("c", .num 2)]) := by
  decide

/-- C3 witness: the amended idempotence theorem applies to the concrete
hints `{field_map: {amount ↦ amt}, defaults: {currency: "USD"}}` and the
payload `{amt: 5}`. -/
theorem c3_schema_adapter_idempotent_witness :
    (((SchemaHints.mk (some [("amount", "amt")])
        (some [("currency", Json.str "USD")])).fieldMap.getD []).map
          Prod.fst).Nodup ∧
      applySchemaAdaptation
          (some (SchemaHints.mk (some [("amount", "amt")])
            (some [("currency", Json.str "USD")])))
          (applySchemaAdaptation
            (some (SchemaHints.mk (some [("amount", "amt")])
              (some [("currency", Json.str "USD")])))
            (.obj [("amt", .num 5)])) =
        applySchemaAdaptation
          (some (SchemaHints.mk (some [("amount", "amt")])
            (some [("currency", Json.str "USD")])))
          (.obj [("amt", .num 5)]) :=
  ⟨by decide,
    c3_schema_adapter_idempotent_amended _ (by decide) (by decide)
      (by decide) _⟩

/-! ## RegionRegistry (src/config/routing.ts, src/agent/routing.ts)

The routing tree is the static `ROUTING_TREE` constant. `new Map(entries)`
construction keeps the last entry per key; ids in `ROUTING_TREE` are
pairwise distinct, so a first-match lookup over the pre-order flattening is
the same map. The JS `visited` set in `resolveNextRegion` is populated only
after the queue has been fully built and nothing is enqueued afterwards, so
it never filters anything and is dropped from the embedding. -/

/-- `RegionNode` from src/config/routing.ts. -/
structure RegionNode where
  id : String
  label : String
  provider : String
  endpoint : String
  weight : Option Nat
  children : List RegionNode
  fallbacks : List String
deriving Repr

/-- Region health tags (`RegionHealthState` values). -/
inductive HealthStatus where
  | healthy : HealthStatus
  | unhealthy : HealthStatus
  | deprecated : HealthStatus
deriving Repr, DecidableEq

/-- `RegionHealthState` is a JS record from region id to status. -/
def healthLookup (health : List (String × HealthStatus)) (id : String) :
    Option HealthStatus :=
  (health.find? (fun p => p.1 = id)).map (fun p => p.2)

/-- `ROUTING_TREE` from src/config/routing.ts. -/
def ROUTING_TREE : RegionNode :=
  { id := "default"
    label := "Battle Healer Default"
    provider := "battle-healer"
    endpoint := "http://localhost:8000"
    weight := none
    children :=
      [{ id := "aws-us-east-1"
         label := "AWS us-east-1"
         provider := "aws"
         endpoint := "http://localhost:8000/regions/us-east-1"
         weight := none
         children := []
         fallbacks := ["aws-eu-west-1", "openai-us"] },
       { id := "aws-eu-west-1"
         label := "AWS eu-west-1 (deprecated demo)"
         provider := "aws"
         endpoint := "http://localhost:8000/regions/deprecated-eu"
         weight := none
         children := []
         fallbacks := ["openai-us"] },
       { id := "openai-us"
         label := "OpenAI proxy"
         provider := "openai"
         endpoint := "http://localhost:8000/regions/openai-us"
         weight := none
         children := []
         fallbacks := ["anthropic-us"] },
       { id := "anthropic-us"
         label := "Anthropic proxy"
         provider := "anthropic"
         endpoint := "http://localhost:8000/regions/anthropic-us"
         weight := none
         children := []
         fallbacks := [] }]
    fallbacks := [] }

mutual

/-- `flattenRoutingTree` from src/config/routing.ts (pre-order). -/
def flattenRoutingTree : RegionNode → List RegionNode
  | ⟨i, l, p, e, w, cs, fs⟩ =>
      ⟨i, l, p, e, w, cs, fs⟩ :: flattenRoutingTreeL cs

/-- Pre-order flattening of a forest of region nodes. -/
def flattenRoutingTreeL : List RegionNode → List RegionNode
  | [] => []
  | n :: ns => flattenRoutingTree n ++ flattenRoutingTreeL ns

end

/-- `findRegionById` from src/config/routing.ts (`REGION_BY_ID` lookup). -/
def findRegionById (id : String) : Option RegionNode :=
  (flattenRoutingTree ROUTING_TREE).find? (fun n => n.id = id)

/-- `findRegionByEndpoint` from src/config/routing.ts (case-insensitive). -/
def findRegionByEndpoint (endpoint : String) : Option RegionNode :=
  (flattenRoutingTree ROUTING_TREE).find?
    (fun n => asciiLower n.endpoint = asciiLower endpoint)

/-- The candidate filter of `resolveNextRegion`'s queue loop: skip ids with
no node, skip non-healthy candidates unless force-included; otherwise
return the candidate. -/
def resolveCandidate (health : List (String × HealthStatus))
    (forceInclude : List String) (nid : String) : Option RegionNode :=
  match findRegionById nid with
  | none => none
  | some cand =>
    if (healthLookup health cand.id).getD .healthy ≠ .healthy ∧
        ¬forceInclude.contains cand.id then
      none
    else
      some cand

/-- The `(currentRegionId && REGION_MAP.get(currentRegionId))` part of the
current-node computation (an empty id is falsy in JS). -/
def resolveFromId (currentRegionId : Option String) : Option RegionNode :=
  match currentRegionId with
  | some cid => if cid = "" then none else findRegionById cid
  | none => none

/-- The candidate queue of `resolveNextRegion`: ids of the current node's
children followed by its declared fallbacks; refilled with the root's
children when it starts out empty. -/
def resolveQueue (cur : RegionNode) : List String :=
  let q := cur.children.map (fun c => c.id) ++ cur.fallbacks
  if q.isEmpty then ROUTING_TREE.children.map (fun c => c.id) else q

/-- The queue scan of `resolveNextRegion` followed by its terminal
fallback to the first root child. -/
def resolveScan (cur : RegionNode) (health : List (String × HealthStatus))
    (forceInclude : List String) : Option RegionNode :=
  match (resolveQueue cur).findSome?
      (resolveCandidate health forceInclude) with
  | some cand => some cand
  | none => ROUTING_TREE.children.head?

/-- `resolveNextRegion` from src/agent/routing.ts. When the scan finds no
eligible candidate the first root child is returned regardless of its
health; `none` is possible only for an empty tree. -/
def resolveNextRegion (currentRegionId : Option String)
    (health : List (String × HealthStatus))
    (forceInclude : List String) : Option RegionNode :=
  match (resolveFromId currentRegionId).or ROUTING_TREE.children.head? with
  | none => none
  | some cur => resolveScan cur health forceInclude

theorem resolveScan_isSome (cur : RegionNode)
    (health : List (String × HealthStatus)) (fi : List String) :
    (resolveScan cur health fi).isSome = true := by
  rw [resolveScan]
  rcases hq : (resolveQueue cur).findSome? (resolveCandidate health fi)
    with _ | cand <;> rfl

theorem resolveScan_eligible (cur : RegionNode)
    (health : List (String × HealthStatus)) (fi : List String)
    (n : RegionNode) (h : resolveScan cur health fi = some n) :
    (healthLookup health n.id).getD .healthy = .healthy ∨
      fi.contains n.id = true ∨ some n = ROUTING_TREE.children.head? := by
  rw [resolveScan] at h
  rcases hq : (resolveQueue cur).findSome? (resolveCandidate health fi)
    with _ | cand
  · rw [hq] at h
    exact Or.inr (Or.inr h.symm)
  · rw [hq] at h
    dsimp only at h
    obtain ⟨nid, _, hres⟩ := List.exists_of_findSome?_eq_some hq
    rw [resolveCandidate] at hres
    rcases hfind : findRegionById nid with _ | c
    · rw [hfind] at hres
      dsimp only at hres
      cases hres
    · rw [hfind] at hres
      dsimp only at hres
      by_cases hcond : (healthLookup health c.id).getD .healthy ≠ .healthy ∧
          ¬fi.contains c.id = true
      · rw [if_pos hcond] at hres
        cases hres
      · rw [if_neg hcond] at hres
        injection hres with hcn
        injection h with hnn
        rw [← hnn, ← hcn]
        rcases not_and_or.mp hcond with hh | hh
        · exact Or.inl (not_not.mp hh)
        · exact Or.inr (Or.inl (not_not.mp hh))

/-- C2 counterexample: when every region is unhealthy and nothing is
force-included, `resolveNextRegion` from `aws-us-east-1` exhausts its
queue and falls back to the first root child `aws-us-east-1`, returning a
node whose health is `unhealthy` without it being force-included. -/
theorem c2_resolve_next_region_counterexample :
    (resolveNextRegion (some "aws-us-east-1")
        [("aws-us-east-1", .unhealthy), ("aws-eu-west-1", .unhealthy),
         ("openai-us", .unhealthy), ("anthropic-us", .unhealthy)]
        []).map (fun n => n.id) = some "aws-us-east-1" ∧
      healthLookup
        [("aws-us-east-1", .unhealthy), ("aws-eu-west-1", .unhealthy),
         ("openai-us", .unhealthy), ("anthropic-us", .unhealthy)]
        "aws-us-east-1" = some .unhealthy ∧
      ([] : List String).contains "aws-us-east-1" = false := by
  refine ⟨?_, rfl, rfl⟩
  rfl

/-- C2 (amended): for the repository's routing tree, `resolveNextRegion`
always returns a node (the tree is non-empty); any returned node is either
healthy under the given map, force-included, or the terminal fallback to
the first root child — that terminal fallback ignores health, so an
unhealthy node can be returned when the scan exhausts. -/
theorem c2_resolve_next_region_amended (cur : Option String)
    (health : List (String × HealthStatus)) (fi : List String) :
    (resolveNextRegion cur health fi).isSome = true ∧
      ∀ n, resolveNextRegion cur health fi = some n →
        (healthLookup health n.id).getD .healthy = .healthy ∨
          fi.contains n.id = true ∨
          some n = ROUTING_TREE.children.head? := by
  rw [resolveNextRegion]
  rcases hor : (resolveFromId cur).or ROUTING_TREE.children.head?
    with _ | node
  · rcases hf : resolveFromId cur with _ | x
    · rw [hf] at hor
      cases hor
    · rw [hf] at hor
      cases hor
  · exact ⟨resolveScan_isSome node health fi,
      fun n h => resolveScan_eligible node health fi n h⟩

/-- C2 witness: the amended theorem applied where `aws-eu-west-1` is
deprecated, so the scan from `aws-us-east-1` returns the healthy
`openai-us` node. -/
theorem c2_resolve_next_region_witness :
    (resolveNextRegion (some "aws-us-east-1")
        [("aws-eu-west-1", .deprecated)] []).isSome = true ∧
      ((healthLookup [("aws-eu-west-1", .deprecated)] "openai-us").getD
          .healthy = .healthy ∨
        ([] : List String).contains "openai-us" = true ∨
        some { id := "openai-us"
               label := "OpenAI proxy"
               provider := "openai"
               endpoint := "http://localhost:8000/regions/openai-us"
               weight := none
               children := []
               fallbacks := ["anthropic-us"] : RegionNode } =
          ROUTING_TREE.children.head?) :=
  ⟨(c2_resolve_next_region_amended (some "aws-us-east-1")
      [("aws-eu-west-1", .deprecated)] []).1,
    (c2_resolve_next_region_amended (some "aws-us-east-1")
      [("aws-eu-west-1", .deprecated)] []).2 _ rfl⟩

/-! ## Transport (src/smartFetch.ts, `smartFetch`)

The attempt loop is embedded as a fuel recursion (`fuel = totalAttempts`):
the environment supplies the outcome of the n-th HTTP call, the
`Date.now()` reading used by the n-th budget check, and the auto-generated
correlation id. The token refresher is part of the config, as in the
source. `parseResponse` is folded into the oracle: `FetchOutcome.http`
carries the body already parsed per content type (with `none` for a 204 or
an unparsable body), and the `Retry-After` header already converted to
milliseconds. Backoff arithmetic and sleeping only delay execution and have
no observable effect here, so delays are not computed; the `logger` is a
pure side channel and is dropped. The run additionally exposes the list of
issued requests and the final retry-budget store, which in the source are
externally observable effects (HTTP traffic and the module-level
`retryBudgetStore`). -/

/-- `FixAction` from src/smartFetch.ts: the template-literal union is a
tagged type with a payload for the `retry_status_<N>` and
`fallback_region_<id>` forms. -/
inductive FixAction where
  | retryStatus : Nat → FixAction
  | fallbackRegion : String → FixAction
  | networkError : FixAction
  | refreshToken : FixAction
  | rotateToken : FixAction
  | retryBudgetExhausted : FixAction
deriving Repr, DecidableEq

/-- `SmartFetchLogEntry` from src/smartFetch.ts. The network-error branch
builds its entry without a `correlationId` field, hence the `Option`. -/
structure SmartFetchLogEntry where
  attempt : Nat
  region : String
  url : String
  status : Option Nat
  error : Option String
  fixActions : List FixAction
  correlationId : Option String
deriving Repr, DecidableEq

/-- `SmartFetchMeta` from src/smartFetch.ts. -/
structure SmartFetchMeta where
  attempts : List SmartFetchLogEntry
  retries : Nat
  region : String
  regionsTried : List String
  fixActions : List FixAction
  correlationId : String
deriving Repr, DecidableEq

/-- The `error` component of `SmartFetchResult`. -/
structure FetchError where
  status : Option Nat
  message : String
  body : Option Json
deriving Repr, DecidableEq

/-- `SmartFetchResult` from src/smartFetch.ts. -/
structure SmartFetchResult where
  data : Option Json
  meta : SmartFetchMeta
  error : Option FetchError
deriving Repr, DecidableEq

/-- `TokenRecoveryContext` from src/smartFetch.ts. -/
structure TokenRecoveryContext where
  status : Nat
  attempt : Nat
  region : String
  previousToken : Option String
deriving Repr, DecidableEq

/-- Result of awaiting the configured `tokenRefresher`: a resolved value
(`none` models `null`/`undefined`) or a rejection with an error message. -/
inductive RefresherOutcome where
  | ok : Option String → RefresherOutcome
  | threw : String → RefresherOutcome
deriving Repr, DecidableEq

/-- Outcome of one `fetch` call: an HTTP response (status, parsed body,
parsed `Retry-After` in milliseconds) or a network error. -/
inductive FetchOutcome where
  | http : Nat → Option Json → Option Int → FetchOutcome
  | netError : String → FetchOutcome
deriving Repr, DecidableEq

/-- `RetryBudgetConfig` from src/smartFetch.ts. -/
structure RetryBudgetConfig where
  key : String
  limit : Nat
  windowMs : Option Int
deriving Repr, DecidableEq

/-- `RetryBudgetWindow` from src/smartFetch.ts. -/
structure RetryBudgetWindow where
  count : Nat
  windowStart : Int
  windowMs : Int
deriving Repr, DecidableEq

/-- `RETRY_BUDGET_DEFAULT_WINDOW_MS` (24 hours). -/
def RETRY_BUDGET_DEFAULT_WINDOW_MS : Int := 24 * 60 * 60 * 1000

/-- `getRetryBudgetWindow` from src/smartFetch.ts, for one key: reset to a
fresh window when the stored one is absent or has aged at least
`windowMs`; the (possibly reset) window is stored back in both cases. -/
def getRetryBudgetWindow (config : RetryBudgetConfig) (now : Int)
    (store : Option RetryBudgetWindow) : RetryBudgetWindow :=
  let windowMs := config.windowMs.getD RETRY_BUDGET_DEFAULT_WINDOW_MS
  match store with
  | some existing =>
      if now - existing.windowStart ≥ windowMs then
        ⟨0, now, windowMs⟩
      else
        existing
  | none => ⟨0, now, windowMs⟩

/-- `consumeRetryBudget` from src/smartFetch.ts: returns whether the
consume succeeded together with the stored window afterwards. -/
def consumeRetryBudget (config : RetryBudgetConfig) (now : Int)
    (store : Option RetryBudgetWindow) : Bool × RetryBudgetWindow :=
  let bucket := getRetryBudgetWindow config now store
  if bucket.count ≥ config.limit then
    (false, bucket)
  else
    (true, { bucket with count := bucket.count + 1 })

/-- Case-insensitive header lookup (`Headers.get`); stored names are kept
lowercased, as `Headers` normalizes them. -/
def headerGet (h : List (String × String)) (k : String) : Option String :=
  (h.find? (fun p => p.1 = asciiLower k)).map (fun p => p.2)

/-- `Headers.set`: replace the value under the normalized name, appending
when absent. -/
def headerSet (h : List (String × String)) (k v : String) :
    List (String × String) :=
  if h.any (fun p => p.1 = asciiLower k) then
    h.map (fun p => if p.1 = asciiLower k then (p.1, v) else p)
  else
    h ++ [(asciiLower k, v)]

/-- `new Headers(init)`: names lowercased; duplicate names combined with
`", "` at the first occurrence, per the Fetch standard. -/
def headersOfList (init : List (String × String)) :
    List (String × String) :=
  init.foldl
    (fun acc p =>
      if acc.any (fun q => q.1 = asciiLower p.1) then
        acc.map (fun q =>
          if q.1 = asciiLower p.1 then (q.1, q.2 ++ ", " ++ p.2) else q)
      else
        acc ++ [(asciiLower p.1, p.2)])
    []

/-- `buildUrlForRegion` from src/smartFetch.ts. -/
def buildUrlForRegion (target : String) (region : String) : String :=
  if region = "" then
    target
  else if strIsPrefixOf "http://" (asciiLower target) ∨
      strIsPrefixOf "https://" (asciiLower target) then
    target
  else
    let trimmedRegion :=
      if strEndsWith region "/" then region.dropRight 1 else region
    let normalizedPath :=
      if strIsPrefixOf "/" target then target else "/" ++ target
    trimmedRegion ++ normalizedPath

/-- `extractTokenFromHeader` from src/smartFetch.ts. -/
def extractTokenFromHeader (value : Option String) : Option String :=
  match value with
  | none => none
  | some v =>
    let trimmed := strTrim v
    if trimmed = "" then
      none
    else if strIsPrefixOf "bearer " (asciiLower trimmed) then
      some (strTrim (trimmed.drop 7))
    else
      some trimmed

/-- `formatToken` from src/smartFetch.ts. -/
def formatToken (token : String) : String :=
  let trimmed := strTrim token
  if strIsPrefixOf "bearer " (asciiLower trimmed) then trimmed
  else "Bearer " ++ trimmed

/-- `Set.add` on the deduplicated fix-action set, keeping JS `Set`
insertion order for `Array.from`. -/
def addFixAction (set : List FixAction) (a : FixAction) : List FixAction :=
  if set.contains a then set else set ++ [a]

/-- `shouldFallbackRegion` from src/smartFetch.ts. -/
def shouldFallbackRegion (status : Nat) : Bool :=
  status = 503 ∨ status = 410

/-- One issued HTTP request (url and headers actually sent). -/
structure SentRequest where
  url : String
  headers : List (String × String)
deriving Repr, DecidableEq

/-- The environment of one `smartFetch` call: outcome of the n-th `fetch`,
`Date.now()` at the n-th attempt's budget check, and the auto-generated
correlation id. -/
structure FetchEnv where
  fetch : Nat → FetchOutcome
  now : Nat → Int
  genCorrelationId : String

/-- `SmartFetchConfig` from src/smartFetch.ts (absent fields are `none`;
backoff knobs and the logger have no observable effect and are omitted). -/
structure SmartFetchConfig where
  maxRetries : Option Nat
  regions : Option (List String)
  retryStatusCodes : Option (List Nat)
  tokenRefresher : Option (TokenRecoveryContext → RefresherOutcome)
  retryBudget : Option RetryBudgetConfig
  correlationId : Option String

/-- The empty `SmartFetchConfig` (`{}`). -/
def SmartFetchConfig.empty : SmartFetchConfig :=
  ⟨none, none, none, none, none, none⟩

/-- Mutable state of the `smartFetch` attempt loop. -/
structure FetchLoopState where
  dynamicHeaders : List (String × String)
  tokenRecoveryAttempted : Bool
  currentTokenValue : Option String
  attempts : List SmartFetchLogEntry
  fixActionSet : List FixAction
  regionsTried : List String
  lastError : Option FetchError
  budgetStore : Option RetryBudgetWindow
  sent : List SentRequest

/-- A finished `smartFetch` call: the returned result plus the observable
effects (requests issued, final state of the module-level budget store). -/
structure SmartFetchRun where
  result : SmartFetchResult
  sent : List SentRequest
  budgetStore : Option RetryBudgetWindow

/-- The failure return at the bottom of `smartFetch` (also reached on
`break`). -/
def smartFetchFailure (correlationId : String) (ls : FetchLoopState) :
    SmartFetchRun :=
  { result :=
      { data := none
        meta :=
          { attempts := ls.attempts
            retries := ls.attempts.length - 1
            region := ((ls.attempts.getLast?).map
              (fun e => e.region)).getD "default"
            regionsTried := ls.regionsTried
            fixActions := ls.fixActionSet
            correlationId := correlationId }
        error := some (ls.lastError.getD ⟨none, "Request failed", none⟩) }
    sent := ls.sent
    budgetStore := ls.budgetStore }

/-- Region selected for the n-th attempt:
`regions[attempt % regions.length] || ''`. -/
def attemptRegion (regions : List String) (attempt : Nat) : String :=
  if regions.isEmpty then ""
  else (regions.get? (attempt % regions.length)).getD ""

/-- `currentRegion || 'default'`. -/
def regionLabelOf (region : String) : String :=
  if region = "" then "default" else region

/-- Start-of-iteration bookkeeping: push the tried region label and record
the outgoing request (target URL plus headers with
`X-BattleHealer-Region` set). -/
def beginAttempt (url : String) (regions : List String) (attempt : Nat)
    (ls : FetchLoopState) : FetchLoopState :=
  { ls with
    regionsTried := ls.regionsTried ++
      [regionLabelOf (attemptRegion regions attempt)]
    sent := ls.sent ++
      [SentRequest.mk (buildUrlForRegion url (attemptRegion regions attempt))
        (headerSet ls.dynamicHeaders "X-BattleHealer-Region"
          (regionLabelOf (attemptRegion regions attempt)))] }

/-- `updateAuthorizationHeader` from src/smartFetch.ts: no-op when the
token extracts to nothing, otherwise remember the bare token and `set` the
formatted `Authorization` header. -/
def updateAuthorizationHeader (ls : FetchLoopState)
    (token : Option String) : FetchLoopState :=
  match extractTokenFromHeader token with
  | none => ls
  | some extracted =>
      { ls with
        currentTokenValue := some extracted
        dynamicHeaders := headerSet ls.dynamicHeaders "Authorization"
          (formatToken extracted) }

theorem beginAttempt_tokenRecoveryAttempted (url : String)
    (regions : List String) (attempt : Nat) (ls : FetchLoopState) :
    (beginAttempt url regions attempt ls).tokenRecoveryAttempted =
      ls.tokenRecoveryAttempted := rfl

theorem beginAttempt_attempts (url : String) (regions : List String)
    (attempt : Nat) (ls : FetchLoopState) :
    (beginAttempt url regions attempt ls).attempts = ls.attempts := rfl

theorem beginAttempt_fixActionSet (url : String) (regions : List String)
    (attempt : Nat) (ls : FetchLoopState) :
    (beginAttempt url regions attempt ls).fixActionSet =
      ls.fixActionSet := rfl

theorem beginAttempt_budgetStore (url : String) (regions : List String)
    (attempt : Nat) (ls : FetchLoopState) :
    (beginAttempt url regions attempt ls).budgetStore = ls.budgetStore :=
  rfl

theorem beginAttempt_lastError (url : String) (regions : List String)
    (attempt : Nat) (ls : FetchLoopState) :
    (beginAttempt url regions attempt ls).lastError = ls.lastError := rfl

theorem beginAttempt_currentTokenValue (url : String)
    (regions : List String) (attempt : Nat) (ls : FetchLoopState) :
    (beginAttempt url regions attempt ls).currentTokenValue =
      ls.currentTokenValue := rfl

theorem beginAttempt_dynamicHeaders (url : String)
    (regions : List String) (attempt : Nat) (ls : FetchLoopState) :
    (beginAttempt url regions attempt ls).dynamicHeaders =
      ls.dynamicHeaders := rfl

theorem beginAttempt_sent (url : String) (regions : List String)
    (attempt : Nat) (ls : FetchLoopState) :
    (beginAttempt url regions attempt ls).sent = ls.sent ++
      [SentRequest.mk (buildUrlForRegion url (attemptRegion regions attempt))
        (headerSet ls.dynamicHeaders "X-BattleHealer-Region"
          (regionLabelOf (attemptRegion regions attempt)))] := rfl

theorem smartFetchFailure_data (cid : String) (ls : FetchLoopState) :
    (smartFetchFailure cid ls).result.data = none := rfl

theorem smartFetchFailure_error (cid : String) (ls : FetchLoopState) :
    (smartFetchFailure cid ls).result.error =
      some (ls.lastError.getD ⟨none, "Request failed", none⟩) := rfl

theorem smartFetchFailure_attempts (cid : String) (ls : FetchLoopState) :
    (smartFetchFailure cid ls).result.meta.attempts = ls.attempts := rfl

theorem smartFetchFailure_sent (cid : String) (ls : FetchLoopState) :
    (smartFetchFailure cid ls).sent = ls.sent := rfl

theorem smartFetchFailure_budgetStore (cid : String)
    (ls : FetchLoopState) :
    (smartFetchFailure cid ls).budgetStore = ls.budgetStore := rfl

theorem updateAuthorizationHeader_attempts (ls : FetchLoopState)
    (token : Option String) :
    (updateAuthorizationHeader ls token).attempts = ls.attempts := by
  rw [updateAuthorizationHeader]
  rcases extractTokenFromHeader token with _ | ex <;> rfl

theorem updateAuthorizationHeader_fixActionSet (ls : FetchLoopState)
    (token : Option String) :
    (updateAuthorizationHeader ls token).fixActionSet = ls.fixActionSet := by
  rw [updateAuthorizationHeader]
  rcases extractTokenFromHeader token with _ | ex <;> rfl

theorem updateAuthorizationHeader_budgetStore (ls : FetchLoopState)
    (token : Option String) :
    (updateAuthorizationHeader ls token).budgetStore = ls.budgetStore := by
  rw [updateAuthorizationHeader]
  rcases extractTokenFromHeader token with _ | ex <;> rfl

theorem updateAuthorizationHeader_lastError (ls : FetchLoopState)
    (token : Option String) :
    (updateAuthorizationHeader ls token).lastError = ls.lastError := by
  rw [updateAuthorizationHeader]
  rcases extractTokenFromHeader token with _ | ex <;> rfl

theorem updateAuthorizationHeader_sent (ls : FetchLoopState)
    (token : Option String) :
    (updateAuthorizationHeader ls token).sent = ls.sent := by
  rw [updateAuthorizationHeader]
  rcases extractTokenFromHeader token with _ | ex <;> rfl

theorem updateAuthorizationHeader_tokenRecoveryAttempted
    (ls : FetchLoopState) (token : Option String) :
    (updateAuthorizationHeader ls token).tokenRecoveryAttempted =
      ls.tokenRecoveryAttempted := by
  rw [updateAuthorizationHeader]
  rcases extractTokenFromHeader token with _ | ex <;> rfl

theorem updateAuthorizationHeader_regionsTried (ls : FetchLoopState)
    (token : Option String) :
    (updateAuthorizationHeader ls token).regionsTried = ls.regionsTried := by
  rw [updateAuthorizationHeader]
  rcases extractTokenFromHeader token with _ | ex <;> rfl

/-- The attempt loop of `smartFetch`. `fuel` counts the remaining
iterations (`totalAttempts - attempt`); running out of fuel is the loop
condition `attempt < totalAttempts` failing. -/
def smartFetchGo (url : String) (totalAttempts : Nat)
    (regions : List String) (retryCodes : List Nat)
    (refresher : Option (TokenRecoveryContext → RefresherOutcome))
    (retryBudget : Option RetryBudgetConfig) (correlationId : String)
    (env : FetchEnv) : Nat → Nat → FetchLoopState → SmartFetchRun
  | 0, _, ls => smartFetchFailure correlationId ls
  | fuel + 1, attempt, ls =>
    let ls₀ := beginAttempt url regions attempt ls
    let regionLabel := regionLabelOf (attemptRegion regions attempt)
    let targetUrl := buildUrlForRegion url (attemptRegion regions attempt)
    match env.fetch attempt with
    | .http status body _retryAfter =>
      if 200 ≤ status ∧ status ≤ 299 then
        { result :=
            { data := body
              meta :=
                { attempts := ls₀.attempts ++
                    [⟨attempt + 1, regionLabel, targetUrl, some status,
                      none, [], some correlationId⟩]
                  retries := attempt
                  region := regionLabel
                  regionsTried := ls₀.regionsTried
                  fixActions := ls₀.fixActionSet
                  correlationId := correlationId }
              error := none }
          sent := ls₀.sent
          budgetStore := ls₀.budgetStore }
      else if refresher.isSome ∧ ¬ls₀.tokenRecoveryAttempted ∧
          (status = 401 ∨ status = 403 ∨ status = 429) then
        let ls₁ := { ls₀ with tokenRecoveryAttempted := true }
        let recoveryAction :=
          if status = 401 ∨ status = 429 then FixAction.refreshToken
          else FixAction.rotateToken
        let recoveryMessage :=
          if status = 401 ∨ status = 429 then
            "Token refreshed after provider rejection."
          else
            "Token rotated after provider notice."
        let ctx : TokenRecoveryContext :=
          ⟨status, attempt + 1, regionLabel, ls₁.currentTokenValue⟩
        match refresher with
        | none => smartFetchFailure correlationId ls₁
        | some f =>
          match f ctx with
          | .ok nextToken =>
            if nextToken.getD "" ≠ "" then
              let ls₂ := updateAuthorizationHeader ls₁ nextToken
              smartFetchGo url totalAttempts regions retryCodes refresher
                retryBudget correlationId env fuel (attempt + 1)
                { ls₂ with
                  attempts := ls₂.attempts ++
                    [⟨attempt + 1, regionLabel, targetUrl, some status,
                      some recoveryMessage, [recoveryAction],
                      some correlationId⟩]
                  fixActionSet := addFixAction ls₂.fixActionSet
                    recoveryAction }
            else
              smartFetchFailure correlationId
                { ls₁ with
                  lastError := some ⟨some status,
                    "Token recovery unavailable.", none⟩
                  attempts := ls₁.attempts ++
                    [⟨attempt + 1, regionLabel, targetUrl, some status,
                      some "Token recovery unavailable.", [],
                      some correlationId⟩] }
          | .threw message =>
            smartFetchFailure correlationId
              { ls₁ with
                lastError := some ⟨some status, message, none⟩
                attempts := ls₁.attempts ++
                  [⟨attempt + 1, regionLabel, targetUrl, some status,
                    some message, [], some correlationId⟩] }
      else if isRetryable (some status) retryCodes then
        let withFallback :=
          shouldFallbackRegion status ∧ regions.length > 1
        let nextRegionLabel :=
          regionLabelOf (attemptRegion regions (attempt + 1))
        let fa₂ :=
          if withFallback then
            [FixAction.retryStatus status] ++
              [FixAction.fallbackRegion nextRegionLabel]
          else [FixAction.retryStatus status]
        let set₂ :=
          if withFallback then
            addFixAction
              (addFixAction ls₀.fixActionSet (FixAction.retryStatus status))
              (FixAction.fallbackRegion nextRegionLabel)
          else addFixAction ls₀.fixActionSet (FixAction.retryStatus status)
        if attempt < totalAttempts - 1 then
          match retryBudget with
          | some bcfg =>
            match consumeRetryBudget bcfg (env.now attempt)
                ls₀.budgetStore with
            | (true, bucket) =>
              smartFetchGo url totalAttempts regions retryCodes refresher
                retryBudget correlationId env fuel (attempt + 1)
                { ls₀ with
                  fixActionSet := set₂
                  attempts := ls₀.attempts ++
                    [⟨attempt + 1, regionLabel, targetUrl, some status,
                      none, fa₂, some correlationId⟩]
                  budgetStore := some bucket }
            | (false, bucket) =>
              smartFetchFailure correlationId
                { ls₀ with
                  fixActionSet := addFixAction set₂
                    FixAction.retryBudgetExhausted
                  attempts := ls₀.attempts ++
                    [⟨attempt + 1, regionLabel, targetUrl, some status,
                      some ("Retry budget exhausted for key \"" ++
                        bcfg.key ++ "\"."),
                      fa₂ ++ [FixAction.retryBudgetExhausted],
                      some correlationId⟩]
                  lastError := some ⟨some status,
                    "Retry budget exhausted for key \"" ++ bcfg.key ++
                      "\".", none⟩
                  budgetStore := some bucket }
          | none =>
            smartFetchGo url totalAttempts regions retryCodes refresher
              retryBudget correlationId env fuel (attempt + 1)
              { ls₀ with
                fixActionSet := set₂
                attempts := ls₀.attempts ++
                  [⟨attempt + 1, regionLabel, targetUrl, some status,
                    none, fa₂, some correlationId⟩] }
        else
          smartFetchFailure correlationId
            { ls₀ with
              fixActionSet := set₂
              attempts := ls₀.attempts ++
                [⟨attempt + 1, regionLabel, targetUrl, some status,
                  some ("Request failed with status " ++ toString status),
                  fa₂, some correlationId⟩,
                 ⟨attempt + 1, regionLabel, targetUrl, some status,
                  some ("Request failed with status " ++ toString status),
                  fa₂, some correlationId⟩]
              lastError := some ⟨some status,
                "Request failed with status " ++ toString status, body⟩ }
      else
        smartFetchFailure correlationId
          { ls₀ with
            attempts := ls₀.attempts ++
              [⟨attempt + 1, regionLabel, targetUrl, some status,
                some ("Request failed with status " ++ toString status),
                [], some correlationId⟩]
            lastError := some ⟨some status,
              "Request failed with status " ++ toString status, body⟩ }
    | .netError errorMessage =>
      if attempt < totalAttempts - 1 then
        match retryBudget with
        | some bcfg =>
          match consumeRetryBudget bcfg (env.now attempt)
              ls₀.budgetStore with
          | (true, bucket) =>
            smartFetchGo url totalAttempts regions retryCodes refresher
              retryBudget correlationId env fuel (attempt + 1)
              { ls₀ with
                fixActionSet := addFixAction ls₀.fixActionSet
                  FixAction.networkError
                attempts := ls₀.attempts ++
                  [⟨attempt + 1, regionLabel, targetUrl, none,
                    some errorMessage, [FixAction.networkError], none⟩]
                budgetStore := some bucket }
          | (false, bucket) =>
            smartFetchFailure correlationId
              { ls₀ with
                fixActionSet := addFixAction
                  (addFixAction ls₀.fixActionSet FixAction.networkError)
                  FixAction.retryBudgetExhausted
                attempts := ls₀.attempts ++
                  [⟨attempt + 1, regionLabel, targetUrl, none,
                    some (errorMessage ++ ". " ++
                      ("Retry budget exhausted for key \"" ++ bcfg.key ++
                        "\".")),
                    [FixAction.networkError,
                      FixAction.retryBudgetExhausted], none⟩]
                lastError := some ⟨none,
                  "Retry budget exhausted for key \"" ++ bcfg.key ++
                    "\".", none⟩
                budgetStore := some bucket }
        | none =>
          smartFetchGo url totalAttempts regions retryCodes refresher
            retryBudget correlationId env fuel (attempt + 1)
            { ls₀ with
              fixActionSet := addFixAction ls₀.fixActionSet
                FixAction.networkError
              attempts := ls₀.attempts ++
                [⟨attempt + 1, regionLabel, targetUrl, none,
                  some errorMessage, [FixAction.networkError], none⟩] }
      else
        smartFetchFailure correlationId
          { ls₀ with
            fixActionSet := addFixAction ls₀.fixActionSet
              FixAction.networkError
            attempts := ls₀.attempts ++
              [⟨attempt + 1, regionLabel, targetUrl, none,
                some errorMessage, [FixAction.networkError], none⟩]
            lastError := some ⟨none, errorMessage, none⟩ }

def smartFetchRun (url : String) (optionHeaders : List (String × String))
    (config : SmartFetchConfig) (env : FetchEnv)
    (initialBudget : Option RetryBudgetWindow) : SmartFetchRun :=
  let maxRetries := config.maxRetries.getD 2
  let regions := config.regions.getD [""]
  let retryCodes :=
    match config.retryStatusCodes with
    | some cs => if cs.isEmpty then DEFAULT_RETRY_CODES else cs
    | none => DEFAULT_RETRY_CODES
  let totalAttempts := maxRetries + 1
  let correlationId :=
    match config.correlationId with
    | some c => if c = "" then env.genCorrelationId else c
    | none => env.genCorrelationId
  let dynamicHeaders :=
    headerSet (headersOfList optionHeaders) "X-Correlation-Id"
      correlationId
  let initState : FetchLoopState :=
    { dynamicHeaders := dynamicHeaders
      tokenRecoveryAttempted := false
      currentTokenValue :=
        extractTokenFromHeader (headerGet dynamicHeaders "Authorization")
      attempts := []
      fixActionSet := []
      regionsTried := []
      lastError := none
      budgetStore := initialBudget
      sent := [] }
  smartFetchGo url totalAttempts regions retryCodes config.tokenRefresher
    config.retryBudget correlationId env totalAttempts 0 initState

/-- C10: with `max_retries = 0` (the configuration the Supervisor uses on
every cycle), a single attempt answered with 401, 403, or 429 whose
configured token refresher returns a non-empty token sends no further
request: the successful recovery consumes the only attempt, and the call
returns `data = null` with the generic error message "Request failed". -/
theorem c10_recovery_consumes_final_attempt (url : String)
    (hdrs : List (String × String))
    (f : TokenRecoveryContext → RefresherOutcome) (env : FetchEnv)
    (s : Nat) (body : Option Json) (ra : Option Int) (tok : String)
    (hs : s = 401 ∨ s = 403 ∨ s = 429)
    (hfetch : env.fetch 0 = .http s body ra)
    (hf : ∀ ctx, f ctx = .ok (some tok))
    (htok : tok ≠ "") :
    ((smartFetchRun url hdrs
        { SmartFetchConfig.empty with
          maxRetries := some 0
          tokenRefresher := some f } env none).result.data = none ∧
      (smartFetchRun url hdrs
        { SmartFetchConfig.empty with
          maxRetries := some 0
          tokenRefresher := some f } env none).result.error =
        some ⟨none, "Request failed", none⟩ ∧
      (smartFetchRun url hdrs
        { SmartFetchConfig.empty with
          maxRetries := some 0
          tokenRefresher := some f } env none).sent.length = 1) := by
  have hok : ¬(200 ≤ s ∧ s ≤ 299) := by
    rcases hs with rfl | rfl | rfl <;> omega
  have htok' : (some tok).getD "" ≠ "" := htok
  simp only [smartFetchRun, SmartFetchConfig.empty, Option.getD]
  rw [smartFetchGo]
  simp only [hfetch]
  rw [if_neg hok,
    if_pos ⟨rfl, by rw [beginAttempt_tokenRecoveryAttempted]; simp, hs⟩]
  simp only [hf]
  rw [if_pos htok']
  rw [smartFetchGo]
  refine ⟨rfl, ?_, ?_⟩
  · simp only [smartFetchFailure_error, updateAuthorizationHeader_lastError,
      beginAttempt_lastError]
    rfl
  · simp only [smartFetchFailure_sent, updateAuthorizationHeader_sent,
      beginAttempt_sent]
    rfl

/-- C10 witness: the theorem applied to a 429 answer with refresher
returning "tok-2". -/
theorem c10_recovery_consumes_final_attempt_witness :
    ((429 = 401 ∨ 429 = 403 ∨ 429 = 429) ∧
      (smartFetchRun "/external-api" []
        { SmartFetchConfig.empty with
          maxRetries := some 0
          tokenRefresher :=
            some fun _ => .ok (some "tok-2") }
        ⟨fun _ => .http 429 none none, fun _ => 0, "corr-1"⟩
        none).result.data = none ∧
      (smartFetchRun "/external-api" []
        { SmartFetchConfig.empty with
          maxRetries := some 0
          tokenRefresher :=
            some fun _ => .ok (some "tok-2") }
        ⟨fun _ => .http 429 none none, fun _ => 0, "corr-1"⟩
        none).result.error = some ⟨none, "Request failed", none⟩ ∧
      (smartFetchRun "/external-api" []
        { SmartFetchConfig.empty with
          maxRetries := some 0
          tokenRefresher :=
            some fun _ => .ok (some "tok-2") }
        ⟨fun _ => .http 429 none none, fun _ => 0, "corr-1"⟩
        none).sent.length = 1) :=
  ⟨by decide,
    c10_recovery_consumes_final_attempt "/external-api" []
      (fun _ => .ok (some "tok-2"))
      ⟨fun _ => .http 429 none none, fun _ => 0, "corr-1"⟩
      429 none none "tok-2" (by decide) rfl (fun _ => rfl) (by decide)⟩

/-! ## C6: token recovery (src/smartFetch.ts) -/

def isRecoveryEntry (e : SmartFetchLogEntry) : Bool :=
  e.fixActions.contains .refreshToken || e.fixActions.contains .rotateToken

def recoveryCount (l : List SmartFetchLogEntry) : Nat :=
  l.countP (fun e => isRecoveryEntry e)

def recoveryEntryOk (e : SmartFetchLogEntry) : Prop :=
  (e.fixActions.contains FixAction.refreshToken = true →
    e.status = some 401 ∨ e.status = some 429) ∧
  (e.fixActions.contains FixAction.rotateToken = true →
    e.status = some 403)

theorem recoveryCount_append (a b : List SmartFetchLogEntry) :
    recoveryCount (a ++ b) = recoveryCount a + recoveryCount b :=
  List.countP_append _ _ _

theorem recovery_inv_extend {a : List SmartFetchLogEntry}
    (es : List SmartFetchLogEntry) (h2 : recoveryCount a ≤ 1)
    (h3 : ∀ e ∈ a, recoveryEntryOk e)
    (hes : ∀ e ∈ es, isRecoveryEntry e = false ∧ recoveryEntryOk e) :
    recoveryCount (a ++ es) ≤ 1 ∧ ∀ e ∈ a ++ es, recoveryEntryOk e := by
  constructor
  · rw [recoveryCount_append]
    have h0 : recoveryCount es = 0 := by
      rw [recoveryCount, List.countP_eq_zero]
      intro e he
      simp [(hes e he).1]
    omega
  · intro e he
    rcases List.mem_append.mp he with h | h
    · exact h3 e h
    · exact (hes e h).2

theorem recoveryCount_single_le (e : SmartFetchLogEntry) :
    recoveryCount [e] ≤ 1 := by
  rw [recoveryCount, List.countP_cons, List.countP_nil]
  split <;> omega

theorem recoveryCount_single_eq_zero {e : SmartFetchLogEntry}
    (h : isRecoveryEntry e = false) : recoveryCount [e] = 0 := by
  rw [recoveryCount, List.countP_cons, List.countP_nil]
  simp [h]

theorem entry_non_recovery (a : Nat) (r u : String) (st : Option Nat)
    (er ci : Option String) (fa : List FixAction)
    (hr : fa.contains FixAction.refreshToken = false)
    (ht : fa.contains FixAction.rotateToken = false) :
    isRecoveryEntry ⟨a, r, u, st, er, fa, ci⟩ = false ∧
      recoveryEntryOk ⟨a, r, u, st, er, fa, ci⟩ := by
  refine ⟨?_, ?_, ?_⟩
  · show (fa.contains FixAction.refreshToken ||
      fa.contains FixAction.rotateToken) = false
    rw [hr, ht]
    rfl
  · intro hc
    have hc' : fa.contains FixAction.refreshToken = true := hc
    rw [hr] at hc'
    cases hc'
  · intro hc
    have hc' : fa.contains FixAction.rotateToken = true := hc
    rw [ht] at hc'
    cases hc'

theorem recoveryEntryOk_ite (a : Nat) (r u : String) (er ci : Option String)
    (s : Nat) (hs : s = 401 ∨ s = 403 ∨ s = 429) :
    recoveryEntryOk ⟨a, r, u, some s, er,
      [if s = 401 ∨ s = 429 then FixAction.refreshToken
        else FixAction.rotateToken], ci⟩ := by
  by_cases hs' : s = 401 ∨ s = 429
  · rw [if_pos hs']
    constructor
    · intro _
      show some s = some 401 ∨ some s = some 429
      rcases hs' with rfl | rfl
      · exact Or.inl rfl
      · exact Or.inr rfl
    · intro hc
      have hc' : ([FixAction.refreshToken].contains
        FixAction.rotateToken) = true := hc
      exact absurd hc' (by decide)
  · rw [if_neg hs']
    have h403 : s = 403 := by tauto
    constructor
    · intro hc
      have hc' : ([FixAction.rotateToken].contains
        FixAction.refreshToken) = true := hc
      exact absurd hc' (by decide)
    · intro _
      show some s = some 403
      rw [h403]

theorem nonrec_invs {b : Bool} {A : List SmartFetchLogEntry}
    (E : SmartFetchLogEntry)
    (hE : isRecoveryEntry E = false ∧ recoveryEntryOk E)
    (h1 : b = false → recoveryCount A = 0) (h2 : recoveryCount A ≤ 1)
    (h3 : ∀ e ∈ A, recoveryEntryOk e) :
    (b = false → recoveryCount (A ++ [E]) = 0) ∧
      recoveryCount (A ++ [E]) ≤ 1 ∧
      ∀ e ∈ A ++ [E], recoveryEntryOk e := by
  have hz := recoveryCount_single_eq_zero hE.1
  refine ⟨?_, ?_, ?_⟩
  · intro hb
    rw [recoveryCount_append, h1 hb, hz]
  · rw [recoveryCount_append, hz]
    omega
  · intro e he
    rcases List.mem_append.mp he with h | h
    · exact h3 e h
    · rw [List.mem_singleton.mp h]
      exact hE.2

theorem nonrec_invs_two {b : Bool} {A : List SmartFetchLogEntry}
    (E : SmartFetchLogEntry)
    (hE : isRecoveryEntry E = false ∧ recoveryEntryOk E)
    (h1 : b = false → recoveryCount A = 0) (h2 : recoveryCount A ≤ 1)
    (h3 : ∀ e ∈ A, recoveryEntryOk e) :
    (b = false → recoveryCount (A ++ [E, E]) = 0) ∧
      recoveryCount (A ++ [E, E]) ≤ 1 ∧
      ∀ e ∈ A ++ [E, E], recoveryEntryOk e := by
  have hz : recoveryCount [E, E] = 0 := by
    rw [recoveryCount, List.countP_cons, List.countP_cons, List.countP_nil,
      hE.1]
    rfl
  refine ⟨?_, ?_, ?_⟩
  · intro hb
    rw [recoveryCount_append, h1 hb, hz]
  · rw [recoveryCount_append, hz]
    omega
  · intro e he
    rcases List.mem_append.mp he with h | h
    · exact h3 e h
    · rcases List.mem_cons.mp h with rfl | h'
      · exact hE.2
      · rw [List.mem_singleton.mp h']
        exact hE.2

theorem rec_invs {b : Bool} {A : List SmartFetchLogEntry}
    (hb : b = true) (E : SmartFetchLogEntry)
    (hz : recoveryCount A = 0) (h3 : ∀ e ∈ A, recoveryEntryOk e)
    (hEok : recoveryEntryOk E) :
    (b = false → recoveryCount (A ++ [E]) = 0) ∧
      recoveryCount (A ++ [E]) ≤ 1 ∧
      ∀ e ∈ A ++ [E], recoveryEntryOk e := by
  refine ⟨fun h => absurd (h ▸ hb) (by decide), ?_, ?_⟩
  · rw [recoveryCount_append, hz, Nat.zero_add]
    exact recoveryCount_single_le E
  · intro e he
    rcases List.mem_append.mp he with h | h
    · exact h3 e h
    · rw [List.mem_singleton.mp h]
      exact hEok

set_option maxHeartbeats 1000000 in
theorem smartFetchGo_recovery_inv (url : String) (T : Nat)
    (regions : List String) (codes : List Nat)
    (refresher : Option (TokenRecoveryContext → RefresherOutcome))
    (budget : Option RetryBudgetConfig) (cid : String) (env : FetchEnv) :
    ∀ (fuel attempt : Nat) (ls : FetchLoopState),
      (ls.tokenRecoveryAttempted = false → recoveryCount ls.attempts = 0) →
      recoveryCount ls.attempts ≤ 1 →
      (∀ e ∈ ls.attempts, recoveryEntryOk e) →
      recoveryCount (smartFetchGo url T regions codes refresher budget cid
          env fuel attempt ls).result.meta.attempts ≤ 1 ∧
        ∀ e ∈ (smartFetchGo url T regions codes refresher budget cid
          env fuel attempt ls).result.meta.attempts, recoveryEntryOk e
  | 0, attempt, ls => fun _ h2 h3 => ⟨h2, h3⟩
  | fuel + 1, attempt, ls => by
    intro h1 h2 h3
    have IH := fun (a : Nat) (ls' : FetchLoopState)
        (hh : (ls'.tokenRecoveryAttempted = false →
            recoveryCount ls'.attempts = 0) ∧
          recoveryCount ls'.attempts ≤ 1 ∧
          ∀ e ∈ ls'.attempts, recoveryEntryOk e) =>
      smartFetchGo_recovery_inv url T regions codes refresher budget cid
        env fuel a ls' hh.1 hh.2.1 hh.2.2
    rw [smartFetchGo]
    rcases hfetch : env.fetch attempt with ⟨s, body, ra⟩ | msg <;> dsimp only
    · split
      · -- 2xx success
        exact (nonrec_invs (b := ls.tokenRecoveryAttempted) _
          (entry_non_recovery _ _ _ _ _ _ _ (by rfl) (by rfl)) h1 h2 h3).2
      · split
        · -- token recovery branch
          rename_i hrec
          have hflag : ls.tokenRecoveryAttempted = false :=
            Bool.eq_false_iff.mpr hrec.2.1
          have hcount : recoveryCount ls.attempts = 0 := h1 hflag
          split
          · exact ⟨h2, h3⟩
          · rename_i f heq
            split
            · rename_i nextToken hcall
              split
              · -- truthy token: continue with next attempt
                refine IH (attempt + 1) _
                  (rec_invs ?_ _ ?_ ?_
                    (recoveryEntryOk_ite _ _ _ _ _ s hrec.2.2))
                · rw [updateAuthorizationHeader_tokenRecoveryAttempted]
                · rw [updateAuthorizationHeader_attempts]
                  exact hcount
                · rw [updateAuthorizationHeader_attempts]
                  exact h3
              · -- empty token: terminal
                exact (nonrec_invs (b := ls.tokenRecoveryAttempted) _
                  (entry_non_recovery _ _ _ _ _ _ _ (by rfl) (by rfl))
                  h1 h2 h3).2
            · -- refresher threw: terminal
              exact (nonrec_invs (b := ls.tokenRecoveryAttempted) _
                (entry_non_recovery _ _ _ _ _ _ _ (by rfl) (by rfl))
                h1 h2 h3).2
        · -- no recovery: retry or terminal
          split
          · -- retryable status
            split
            · -- attempts remaining
              split
              · -- retry budget configured
                split
                · -- consume succeeded: continue
                  exact IH (attempt + 1) _
                    (nonrec_invs _ (entry_non_recovery _ _ _ _ _ _ _
                      (by split <;> rfl) (by split <;> rfl)) h1 h2 h3)
                · -- budget denied: terminal
                  exact (nonrec_invs (b := ls.tokenRecoveryAttempted) _
                    (entry_non_recovery _ _ _ _ _ _ _
                      (by split <;> rfl) (by split <;> rfl)) h1 h2 h3).2
              · -- no budget: continue
                exact IH (attempt + 1) _
                  (nonrec_invs _ (entry_non_recovery _ _ _ _ _ _ _
                    (by split <;> rfl) (by split <;> rfl)) h1 h2 h3)
            · -- exhausted: terminal with doubled entry
              exact (nonrec_invs_two (b := ls.tokenRecoveryAttempted) _
                (entry_non_recovery _ _ _ _ _ _ _
                  (by split <;> rfl) (by split <;> rfl)) h1 h2 h3).2
          · -- non-retryable: terminal
            exact (nonrec_invs (b := ls.tokenRecoveryAttempted) _
              (entry_non_recovery _ _ _ _ _ _ _ (by rfl) (by rfl))
              h1 h2 h3).2
    · -- network error
      split
      · split
        · split
          · -- consumed: continue
            exact IH (attempt + 1) _
              (nonrec_invs _ (entry_non_recovery _ _ _ _ _ _ _
                (by rfl) (by rfl)) h1 h2 h3)
          · -- denied: terminal
            exact (nonrec_invs (b := ls.tokenRecoveryAttempted) _
              (entry_non_recovery _ _ _ _ _ _ _ (by rfl) (by rfl))
              h1 h2 h3).2
        · -- no budget: continue
          exact IH (attempt + 1) _
            (nonrec_invs _ (entry_non_recovery _ _ _ _ _ _ _
              (by rfl) (by rfl)) h1 h2 h3)
      · -- exhausted: terminal
        exact (nonrec_invs (b := ls.tokenRecoveryAttempted) _
          (entry_non_recovery _ _ _ _ _ _ _ (by rfl) (by rfl)) h1 h2 h3).2

theorem hget_map_set_self {h : List (String × String)} {key : String}
    (v : String) (hany : (h.any fun p => p.1 = key) = true) :
    ((h.map fun p => if p.1 = key then (p.1, v) else p).find?
      (fun p => p.1 = key)).map (fun p => p.2) = some v := by
  induction h with
  | nil => simp at hany
  | cons p h ih =>
    by_cases hp : p.1 = key
    · rw [List.map_cons, if_pos hp, List.find?_cons_of_pos _
        (by simpa using hp), Option.map_some']
    · have h' : (h.any fun p => p.1 = key) = true := by
        simpa [hp] using hany
      rw [List.map_cons, if_neg hp,
        List.find?_cons_of_neg _ (by simpa using hp), ih h']

theorem headerGet_headerSet_self (h : List (String × String))
    (k v : String) : headerGet (headerSet h k v) k = some v := by
  rw [headerSet]
  split
  · rename_i hany
    rw [headerGet]
    exact hget_map_set_self v hany
  · rename_i hany
    have hnone : (h.find? fun p => p.1 = asciiLower k) = none := by
      rw [List.find?_eq_none]
      intro p hp hk
      exact hany (List.any_eq_true.mpr ⟨p, hp, by simpa using hk⟩)
    rw [headerGet, List.find?_append, hnone, Option.none_or,
      List.find?_cons_of_pos _ (by simp), Option.map_some']

theorem hget_map_set_ne {key key' : String} (v : String)
    (hne : key' ≠ key) :
    ∀ h : List (String × String),
      ((h.map fun p => if p.1 = key then (p.1, v) else p).find?
        (fun p => p.1 = key')).map (fun p => p.2) =
      (h.find? (fun p => p.1 = key')).map (fun p => p.2)
  | [] => by simp
  | p :: h => by
    by_cases hp : p.1 = key'
    · have hpk : ¬p.1 = key := fun hk => hne (by rw [← hp, hk])
      rw [List.map_cons, if_neg hpk,
        List.find?_cons_of_pos _ (by simpa using hp),
        List.find?_cons_of_pos _ (by simpa using hp)]
    · by_cases hpk : p.1 = key
      · rw [List.map_cons, if_pos hpk,
          List.find?_cons_of_neg _ (by simpa using hp),
          List.find?_cons_of_neg _ (by simpa using hp),
          hget_map_set_ne v hne h]
      · rw [List.map_cons, if_neg hpk,
          List.find?_cons_of_neg _ (by simpa using hp),
          List.find?_cons_of_neg _ (by simpa using hp),
          hget_map_set_ne v hne h]

theorem headerGet_headerSet_ne (h : List (String × String))
    {k k' : String} (v : String) (hne : asciiLower k' ≠ asciiLower k) :
    headerGet (headerSet h k v) k' = headerGet h k' := by
  rw [headerSet]
  split
  · rw [headerGet, headerGet]
    exact hget_map_set_ne v hne h
  · rw [headerGet, List.find?_append, headerGet]
    rcases hfind : h.find? fun p => p.1 = asciiLower k' with _ | p
    · rw [hfind, Option.none_or,
        List.find?_cons_of_neg _ (by simpa using Ne.symm hne)]
      rfl
    · rw [hfind]
      rfl


theorem updateAuthorizationHeader_dynamicHeaders_of_extract
    (ls : FetchLoopState) (token : Option String) {tk : String}
    (hext : extractTokenFromHeader token = some tk) :
    (updateAuthorizationHeader ls token).dynamicHeaders =
      headerSet ls.dynamicHeaders "Authorization" (formatToken tk) := by
  rw [updateAuthorizationHeader, hext]

theorem smartFetchRun_recovery_at_most_once (url : String)
    (hdrs : List (String × String)) (cfg : SmartFetchConfig)
    (env : FetchEnv) (b0 : Option RetryBudgetWindow) :
    recoveryCount (smartFetchRun url hdrs cfg env
        b0).result.meta.attempts ≤ 1 ∧
      ∀ e ∈ (smartFetchRun url hdrs cfg env b0).result.meta.attempts,
        recoveryEntryOk e := by
  rw [smartFetchRun]
  exact smartFetchGo_recovery_inv _ _ _ _ _ _ _ _ _ _ _
    (fun _ => rfl) (Nat.zero_le 1)
    (fun e he => absurd he (List.not_mem_nil e))

theorem smartFetch_recovery_empty_terminal (url : String)
    (hdrs : List (String × String)) (m : Nat)
    (f : TokenRecoveryContext → RefresherOutcome) (env : FetchEnv)
    (b0 : Option RetryBudgetWindow) (rb : Option RetryBudgetConfig)
    (cid : Option String) (s : Nat) (body : Option Json) (ra : Option Int)
    (tokOpt : Option String)
    (hs : s = 401 ∨ s = 403 ∨ s = 429)
    (hfetch : env.fetch 0 = .http s body ra)
    (hf : ∀ ctx, f ctx = .ok tokOpt)
    (hempty : tokOpt.getD "" = "") :
    (smartFetchRun url hdrs ⟨some m, none, none, some f, rb, cid⟩ env
        b0).result.error =
      some ⟨some s, "Token recovery unavailable.", none⟩ ∧
      (smartFetchRun url hdrs ⟨some m, none, none, some f, rb, cid⟩ env
        b0).sent.length = 1 := by
  have hok : ¬(200 ≤ s ∧ s ≤ 299) := by
    rcases hs with rfl | rfl | rfl <;> omega
  simp only [smartFetchRun, Option.getD]
  rw [smartFetchGo]
  simp only [hfetch]
  rw [if_neg hok,
    if_pos ⟨rfl, by rw [beginAttempt_tokenRecoveryAttempted]; simp, hs⟩]
  simp only [hf]
  rw [if_neg (not_not_intro hempty)]
  refine ⟨?_, ?_⟩
  · simp only [smartFetchFailure_error]
    rfl
  · simp only [smartFetchFailure_sent, beginAttempt_sent]
    rfl

theorem smartFetch_recovery_threw_terminal (url : String)
    (hdrs : List (String × String)) (m : Nat)
    (f : TokenRecoveryContext → RefresherOutcome) (env : FetchEnv)
    (b0 : Option RetryBudgetWindow) (rb : Option RetryBudgetConfig)
    (cid : Option String) (s : Nat) (body : Option Json) (ra : Option Int)
    (msg : String)
    (hs : s = 401 ∨ s = 403 ∨ s = 429)
    (hfetch : env.fetch 0 = .http s body ra)
    (hf : ∀ ctx, f ctx = .threw msg) :
    (smartFetchRun url hdrs ⟨some m, none, none, some f, rb, cid⟩ env
        b0).result.error = some ⟨some s, msg, none⟩ ∧
      (smartFetchRun url hdrs ⟨some m, none, none, some f, rb, cid⟩ env
        b0).sent.length = 1 := by
  have hok : ¬(200 ≤ s ∧ s ≤ 299) := by
    rcases hs with rfl | rfl | rfl <;> omega
  simp only [smartFetchRun, Option.getD]
  rw [smartFetchGo]
  simp only [hfetch]
  rw [if_neg hok,
    if_pos ⟨rfl, by rw [beginAttempt_tokenRecoveryAttempted]; simp, hs⟩]
  simp only [hf]
  refine ⟨?_, ?_⟩
  · simp only [smartFetchFailure_error]
    rfl
  · simp only [smartFetchFailure_sent, beginAttempt_sent]
    rfl

set_option maxHeartbeats 1000000 in
theorem smartFetch_recovery_rewrites_header (url : String)
    (hdrs : List (String × String))
    (f : TokenRecoveryContext → RefresherOutcome) (env : FetchEnv)
    (b0 : Option RetryBudgetWindow) (rb : Option RetryBudgetConfig)
    (cid : Option String) (s s₁ : Nat) (body body₁ : Option Json)
    (ra ra₁ : Option Int) (tok tk : String)
    (hs : s = 401 ∨ s = 403 ∨ s = 429)
    (hfetch : env.fetch 0 = .http s body ra)
    (hfetch1 : env.fetch 1 = .http s₁ body₁ ra₁)
    (hs1 : 200 ≤ s₁ ∧ s₁ ≤ 299)
    (hf : ∀ ctx, f ctx = .ok (some tok))
    (hext : extractTokenFromHeader (some tok) = some tk)
    (htok : tok ≠ "") :
    (smartFetchRun url hdrs ⟨some 1, none, none, some f, rb, cid⟩ env
        b0).sent.length = 2 ∧
      headerGet (((smartFetchRun url hdrs ⟨some 1, none, none, some f, rb,
          cid⟩ env b0).sent.getLast?.getD (SentRequest.mk "" [])).headers)
        "Authorization" = some (formatToken tk) ∧
      (smartFetchRun url hdrs ⟨some 1, none, none, some f, rb, cid⟩ env
        b0).budgetStore = b0 ∧
      (smartFetchRun url hdrs ⟨some 1, none, none, some f, rb, cid⟩ env
        b0).result.data = body₁ ∧
      ((smartFetchRun url hdrs ⟨some 1, none, none, some f, rb, cid⟩ env
          b0).result.meta.attempts.head?).map (fun e => e.fixActions) =
        some [if s = 401 ∨ s = 429 then FixAction.refreshToken
          else FixAction.rotateToken] := by
  have hok : ¬(200 ≤ s ∧ s ≤ 299) := by
    rcases hs with rfl | rfl | rfl <;> omega
  have htok' : (some tok).getD "" ≠ "" := htok
  have hAuth : asciiLower "Authorization" ≠
      asciiLower "X-BattleHealer-Region" := by decide
  simp only [smartFetchRun, Option.getD]
  rw [smartFetchGo]
  simp only [hfetch]
  rw [if_neg hok,
    if_pos ⟨rfl, by rw [beginAttempt_tokenRecoveryAttempted]; simp, hs⟩]
  simp only [hf]
  rw [if_pos htok']
  rw [smartFetchGo]
  simp only [Nat.reduceAdd, hfetch1]
  rw [if_pos hs1]
  refine ⟨?_, ?_, ?_, rfl, ?_⟩
  · simp only [beginAttempt_sent, updateAuthorizationHeader_sent]
    rfl
  · simp only [beginAttempt_sent, updateAuthorizationHeader_sent,
      List.getLast?_concat]
    show headerGet (headerSet (updateAuthorizationHeader _ (some tok)).dynamicHeaders
      "X-BattleHealer-Region" _) "Authorization" = some (formatToken tk)
    rw [headerGet_headerSet_ne _ _ hAuth,
      updateAuthorizationHeader_dynamicHeaders_of_extract _ _ hext,
      headerGet_headerSet_self]
  · simp only [beginAttempt_budgetStore,
      updateAuthorizationHeader_budgetStore]
  · simp only [beginAttempt_attempts, updateAuthorizationHeader_attempts]
    rfl

/-- C6 counterexample: a refresher result that is non-empty in the
JavaScript truthiness sense but whitespace-only (" ") takes the recovery
path — the `refresh_token` fix action is recorded and the loop continues —
yet `updateAuthorizationHeader` extracts nothing from it and leaves the
`Authorization` header unchanged ("Bearer t0"), contradicting the claim
that every non-empty refresher result rewrites the header. -/
theorem c6_token_recovery_counterexample :
    ((smartFetchRun "/external-api" [("Authorization", "Bearer t0")]
        ⟨some 1, none, none,
          some (fun _ => RefresherOutcome.ok (some " ")), none,
          some "corr-6"⟩
        ⟨fun n => if n = 0 then FetchOutcome.http 401 none none
            else FetchOutcome.http 200 (some (Json.str "ok")) none,
          fun _ => 0, "corr-gen"⟩ none).result.meta.attempts.head?).map
        (fun e => e.fixActions) = some [FixAction.refreshToken] ∧
      (smartFetchRun "/external-api" [("Authorization", "Bearer t0")]
        ⟨some 1, none, none,
          some (fun _ => RefresherOutcome.ok (some " ")), none,
          some "corr-6"⟩
        ⟨fun n => if n = 0 then FetchOutcome.http 401 none none
            else FetchOutcome.http 200 (some (Json.str "ok")) none,
          fun _ => 0, "corr-gen"⟩ none).sent.length = 2 ∧
      headerGet (((smartFetchRun "/external-api"
          [("Authorization", "Bearer t0")]
          ⟨some 1, none, none,
            some (fun _ => RefresherOutcome.ok (some " ")), none,
            some "corr-6"⟩
          ⟨fun n => if n = 0 then FetchOutcome.http 401 none none
              else FetchOutcome.http 200 (some (Json.str "ok")) none,
            fun _ => 0, "corr-gen"⟩ none).sent.getLast?.getD
          (SentRequest.mk "" [])).headers) "Authorization" =
        some "Bearer t0" ∧
      (smartFetchRun "/external-api" [("Authorization", "Bearer t0")]
        ⟨some 1, none, none,
          some (fun _ => RefresherOutcome.ok (some " ")), none,
          some "corr-6"⟩
        ⟨fun n => if n = 0 then FetchOutcome.http 401 none none
            else FetchOutcome.http 200 (some (Json.str "ok")) none,
          fun _ => 0, "corr-gen"⟩ none).result.data =
        some (Json.str "ok") := by decide

/-- C6 (amended): token recovery in `smartFetch` runs at most once per
call and records `refresh_token` only for 401/429 and `rotate_token` only
for 403 (conjunct 2, for every configuration); a refresher result whose
token still contains something after trimming rewrites the `Authorization`
header to `Bearer <tok>` (unless the prefix is already present) and
continues with the next attempt without consuming the retry budget
(conjunct 1); an empty refresher result or a thrown refresher error
terminates the call with an error (conjuncts 3 and 4). -/
theorem c6_token_recovery_amended (url : String)
    (hdrs : List (String × String))
    (f : TokenRecoveryContext → RefresherOutcome) (env : FetchEnv)
    (b0 : Option RetryBudgetWindow) (rb : Option RetryBudgetConfig)
    (cid : Option String) (s s₁ : Nat) (body body₁ : Option Json)
    (ra ra₁ : Option Int) (tok tk : String)
    (hs : s = 401 ∨ s = 403 ∨ s = 429)
    (hfetch : env.fetch 0 = .http s body ra)
    (hfetch1 : env.fetch 1 = .http s₁ body₁ ra₁)
    (hs1 : 200 ≤ s₁ ∧ s₁ ≤ 299)
    (hf : ∀ ctx, f ctx = .ok (some tok))
    (hext : extractTokenFromHeader (some tok) = some tk)
    (htok : tok ≠ "") :
    ((smartFetchRun url hdrs ⟨some 1, none, none, some f, rb, cid⟩ env
        b0).sent.length = 2 ∧
      headerGet (((smartFetchRun url hdrs ⟨some 1, none, none, some f, rb,
          cid⟩ env b0).sent.getLast?.getD (SentRequest.mk "" [])).headers)
        "Authorization" = some (formatToken tk) ∧
      (smartFetchRun url hdrs ⟨some 1, none, none, some f, rb, cid⟩ env
        b0).budgetStore = b0 ∧
      (smartFetchRun url hdrs ⟨some 1, none, none, some f, rb, cid⟩ env
        b0).result.data = body₁ ∧
      ((smartFetchRun url hdrs ⟨some 1, none, none, some f, rb, cid⟩ env
          b0).result.meta.attempts.head?).map (fun e => e.fixActions) =
        some [if s = 401 ∨ s = 429 then FixAction.refreshToken
          else FixAction.rotateToken]) ∧
      (∀ (u : String) (h : List (String × String))
          (cfg : SmartFetchConfig) (e : FetchEnv)
          (b : Option RetryBudgetWindow),
        recoveryCount (smartFetchRun u h cfg e
            b).result.meta.attempts ≤ 1 ∧
          ∀ en ∈ (smartFetchRun u h cfg e b).result.meta.attempts,
            recoveryEntryOk en) ∧
      (∀ (u : String) (h : List (String × String)) (m s' : Nat)
          (f' : TokenRecoveryContext → RefresherOutcome) (e : FetchEnv)
          (b : Option RetryBudgetWindow) (rb' : Option RetryBudgetConfig)
          (cid' : Option String) (body' : Option Json) (ra' : Option Int)
          (tokOpt : Option String),
        (s' = 401 ∨ s' = 403 ∨ s' = 429) →
        e.fetch 0 = .http s' body' ra' →
        (∀ ctx, f' ctx = .ok tokOpt) → tokOpt.getD "" = "" →
        (smartFetchRun u h ⟨some m, none, none, some f', rb', cid'⟩ e
            b).result.error =
          some ⟨some s', "Token recovery unavailable.", none⟩ ∧
          (smartFetchRun u h ⟨some m, none, none, some f', rb', cid'⟩ e
            b).sent.length = 1) ∧
      (∀ (u : String) (h : List (String × String)) (m s' : Nat)
          (f' : TokenRecoveryContext → RefresherOutcome) (e : FetchEnv)
          (b : Option RetryBudgetWindow) (rb' : Option RetryBudgetConfig)
          (cid' : Option String) (body' : Option Json) (ra' : Option Int)
          (msg : String),
        (s' = 401 ∨ s' = 403 ∨ s' = 429) →
        e.fetch 0 = .http s' body' ra' →
        (∀ ctx, f' ctx = .threw msg) →
        (smartFetchRun u h ⟨some m, none, none, some f', rb', cid'⟩ e
            b).result.error = some ⟨some s', msg, none⟩ ∧
          (smartFetchRun u h ⟨some m, none, none, some f', rb', cid'⟩ e
            b).sent.length = 1) :=
  ⟨smartFetch_recovery_rewrites_header url hdrs f env b0 rb cid s s₁ body
      body₁ ra ra₁ tok tk hs hfetch hfetch1 hs1 hf hext htok,
    fun u h cfg e b => smartFetchRun_recovery_at_most_once u h cfg e b,
    fun u h m s' f' e b rb' cid' body' ra' tokOpt hs' hfe hf' hemp =>
      smartFetch_recovery_empty_terminal u h m f' e b rb' cid' s' body'
        ra' tokOpt hs' hfe hf' hemp,
    fun u h m s' f' e b rb' cid' body' ra' msg hs' hfe hf' =>
      smartFetch_recovery_threw_terminal u h m f' e b rb' cid' s' body'
        ra' msg hs' hfe hf'⟩

/-- C6 witness: the amended theorem applied to a 401 first answer and a
refresher returning "t1": the second request carries
`Authorization: Bearer t1` and the call succeeds on attempt 2. -/
theorem c6_token_recovery_witness :
    (smartFetchRun "/external-api" [("Authorization", "Bearer t0")]
        ⟨some 1, none, none,
          some (fun _ => RefresherOutcome.ok (some "t1")), none,
          some "corr-7"⟩
        ⟨fun n => if n = 0 then FetchOutcome.http 401 none none
            else FetchOutcome.http 200 (some (Json.str "ok")) none,
          fun _ => 0, "corr-gen"⟩ none).sent.length = 2 ∧
      headerGet (((smartFetchRun "/external-api"
          [("Authorization", "Bearer t0")]
          ⟨some 1, none, none,
            some (fun _ => RefresherOutcome.ok (some "t1")), none,
            some "corr-7"⟩
          ⟨fun n => if n = 0 then FetchOutcome.http 401 none none
              else FetchOutcome.http 200 (some (Json.str "ok")) none,
            fun _ => 0, "corr-gen"⟩ none).sent.getLast?.getD
          (SentRequest.mk "" [])).headers) "Authorization" =
        some "Bearer t1" ∧
      (smartFetchRun "/external-api" [("Authorization", "Bearer t0")]
        ⟨some 1, none, none,
          some (fun _ => RefresherOutcome.ok (some "t1")), none,
          some "corr-7"⟩
        ⟨fun n => if n = 0 then FetchOutcome.http 401 none none
            else FetchOutcome.http 200 (some (Json.str "ok")) none,
          fun _ => 0, "corr-gen"⟩ none).budgetStore = none ∧
      (smartFetchRun "/external-api" [("Authorization", "Bearer t0")]
        ⟨some 1, none, none,
          some (fun _ => RefresherOutcome.ok (some "t1")), none,
          some "corr-7"⟩
        ⟨fun n => if n = 0 then FetchOutcome.http 401 none none
            else FetchOutcome.http 200 (some (Json.str "ok")) none,
          fun _ => 0, "corr-gen"⟩ none).result.data =
        some (Json.str "ok") ∧
      ((smartFetchRun "/external-api" [("Authorization", "Bearer t0")]
          ⟨some 1, none, none,
            some (fun _ => RefresherOutcome.ok (some "t1")), none,
            some "corr-7"⟩
          ⟨fun n => if n = 0 then FetchOutcome.http 401 none none
              else FetchOutcome.http 200 (some (Json.str "ok")) none,
            fun _ => 0, "corr-gen"⟩ none).result.meta.attempts.head?).map
        (fun e => e.fixActions) = some [FixAction.refreshToken] :=
  (c6_token_recovery_amended "/external-api" [("Authorization", "Bearer t0")]
    (fun _ => RefresherOutcome.ok (some "t1"))
    ⟨fun n => if n = 0 then FetchOutcome.http 401 none none
        else FetchOutcome.http 200 (some (Json.str "ok")) none,
      fun _ => 0, "corr-gen"⟩ none none (some "corr-7") 401 200 none
    (some (Json.str "ok")) none none "t1" "t1" (by decide) rfl rfl
    (by decide) (fun _ => rfl) (by decide) (by decide)).1

/-! ## C4: retry budget (src/smartFetch.ts)

`retryBudgetStore` holds one `RetryBudgetWindow` per key; a `smartFetch`
test drives a single key, so a trace is a list of call times against an
optional stored window. -/

/-- A sequence of `consumeRetryBudget` calls on one key at the given
times, threading the stored window; returns each call time with its
result. -/
def consumeTrace (config : RetryBudgetConfig) :
    List Int → Option RetryBudgetWindow → List (Int × Bool)
  | [], _ => []
  | t :: ts, store =>
    let r := consumeRetryBudget config t store
    (t, r.1) :: consumeTrace config ts (some r.2)

theorem consumeTrace_window_bound (cfg : RetryBudgetConfig) :
    ∀ (ts : List Int) (w : RetryBudgetWindow),
      (∀ t ∈ ts, t - w.windowStart <
        cfg.windowMs.getD RETRY_BUDGET_DEFAULT_WINDOW_MS) →
      (consumeTrace cfg ts (some w)).countP (fun r => r.2) ≤
        cfg.limit - w.count
  | [], _ => fun _ => Nat.zero_le _
  | t :: ts, w => fun h => by
    have hnr : ¬(t - w.windowStart ≥
        cfg.windowMs.getD RETRY_BUDGET_DEFAULT_WINDOW_MS) :=
      not_le.mpr (h t (List.mem_cons_self t ts))
    have htail : ∀ t' ∈ ts, t' - w.windowStart <
        cfg.windowMs.getD RETRY_BUDGET_DEFAULT_WINDOW_MS :=
      fun t' ht' => h t' (List.mem_cons_of_mem _ ht')
    simp only [consumeTrace, consumeRetryBudget, getRetryBudgetWindow,
      if_neg hnr]
    by_cases hc : w.count ≥ cfg.limit
    · rw [if_pos hc]
      rw [List.countP_cons]
      simpa using consumeTrace_window_bound cfg ts w htail
    · rw [if_neg hc]
      rw [List.countP_cons]
      have ihb := consumeTrace_window_bound cfg ts
        { w with count := w.count + 1 } htail
      simp only [not_le] at hc
      simp at ihb ⊢
      omega

theorem consumeTrace_fixed_window (cfg : RetryBudgetConfig)
    (ts : List Int) (t0 : Int)
    (hts : ∀ t ∈ ts, t0 ≤ t ∧ t < t0 +
      cfg.windowMs.getD RETRY_BUDGET_DEFAULT_WINDOW_MS) :
    (consumeTrace cfg ts none).countP (fun r => r.2) ≤ cfg.limit := by
  cases ts with
  | nil => simp [consumeTrace]
  | cons t1 ts =>
    have h1 := hts t1 (List.mem_cons_self t1 ts)
    have htail : ∀ t ∈ ts, t - t1 <
        cfg.windowMs.getD RETRY_BUDGET_DEFAULT_WINDOW_MS := by
      intro t ht
      have := hts t (List.mem_cons_of_mem _ ht)
      omega
    simp only [consumeTrace, consumeRetryBudget, getRetryBudgetWindow]
    by_cases hc : (0 : Nat) ≥ cfg.limit
    · rw [if_pos hc]
      rw [List.countP_cons]
      have := consumeTrace_window_bound cfg ts
        ⟨0, t1, cfg.windowMs.getD RETRY_BUDGET_DEFAULT_WINDOW_MS⟩ htail
      simp at this ⊢
      omega
    · rw [if_neg hc]
      rw [List.countP_cons]
      have := consumeTrace_window_bound cfg ts
        ⟨0 + 1, t1, cfg.windowMs.getD RETRY_BUDGET_DEFAULT_WINDOW_MS⟩ htail
      simp only [not_le] at hc
      simp at this ⊢
      omega

theorem consumeRetryBudget_reset (cfg : RetryBudgetConfig) (now : Int)
    (store : Option RetryBudgetWindow) (hL : 0 < cfg.limit)
    (hreset : store = none ∨ ∃ w, store = some w ∧
      now - w.windowStart ≥
        cfg.windowMs.getD RETRY_BUDGET_DEFAULT_WINDOW_MS) :
    consumeRetryBudget cfg now store =
      (true, ⟨1, now, cfg.windowMs.getD RETRY_BUDGET_DEFAULT_WINDOW_MS⟩) := by
  rcases hreset with rfl | ⟨w, rfl, hexp⟩
  · simp only [consumeRetryBudget, getRetryBudgetWindow]
    rw [if_neg (by omega)]
  · simp only [consumeRetryBudget, getRetryBudgetWindow, if_pos hexp]
    rw [if_neg (by show ¬(0 ≥ cfg.limit); omega)]

theorem consumeRetryBudget_deny (cfg : RetryBudgetConfig) (now : Int)
    (w : RetryBudgetWindow)
    (hlive : now - w.windowStart <
      cfg.windowMs.getD RETRY_BUDGET_DEFAULT_WINDOW_MS)
    (hfull : w.count ≥ cfg.limit) :
    consumeRetryBudget cfg now (some w) = (false, w) := by
  simp only [consumeRetryBudget, getRetryBudgetWindow,
    if_neg (not_le.mpr hlive), if_pos hfull]

theorem consumeRetryBudget_increment (cfg : RetryBudgetConfig) (now : Int)
    (w : RetryBudgetWindow)
    (hlive : now - w.windowStart <
      cfg.windowMs.getD RETRY_BUDGET_DEFAULT_WINDOW_MS)
    (hroom : w.count < cfg.limit) :
    consumeRetryBudget cfg now (some w) =
      (true, { w with count := w.count + 1 }) := by
  simp only [consumeRetryBudget, getRetryBudgetWindow,
    if_neg (not_le.mpr hlive), if_neg (not_le.mpr hroom)]

/-- C4 counterexample: with limit 2 and window 10, calls at times
0, 9, 10, 11 all succeed (the fixed window resets at time 10), so the
rolling interval [9, 19) contains 3 successes — more than the limit. -/
theorem c4_retry_budget_counterexample :
    (consumeTrace ⟨"k", 2, some 10⟩ [0, 9, 10, 11] none).countP
        (fun r => decide (9 ≤ r.1 ∧ r.1 < 9 + 10) && r.2) = 3 ∧
      (3 : Nat) > 2 := by decide

/-- C4 (amended): the retry budget is a fixed window, not a rolling one:
when every call time lies inside one fixed span `[t0, t0 + W)` of the
configured window length, at most `limit` calls succeed (conjunct 1);
per call (conjunct 2), an absent or expired window is reset to count 1
with `true` (for a positive limit), a live full window yields `false`
and is kept, and a live non-full window is incremented with `true`.
Across a window reset, a rolling interval of length `W` can see up to
twice the limit of successes. -/
theorem c4_retry_budget_amended (cfg : RetryBudgetConfig) (ts : List Int)
    (t0 : Int)
    (hts : ∀ t ∈ ts, t0 ≤ t ∧ t < t0 +
      cfg.windowMs.getD RETRY_BUDGET_DEFAULT_WINDOW_MS) :
    (consumeTrace cfg ts none).countP (fun r => r.2) ≤ cfg.limit ∧
      ∀ (cfg' : RetryBudgetConfig) (now : Int)
          (store : Option RetryBudgetWindow),
        (0 < cfg'.limit →
          (store = none ∨ ∃ w, store = some w ∧ now - w.windowStart ≥
            cfg'.windowMs.getD RETRY_BUDGET_DEFAULT_WINDOW_MS) →
          consumeRetryBudget cfg' now store =
            (true, ⟨1, now,
              cfg'.windowMs.getD RETRY_BUDGET_DEFAULT_WINDOW_MS⟩)) ∧
        (∀ w, store = some w →
          now - w.windowStart <
            cfg'.windowMs.getD RETRY_BUDGET_DEFAULT_WINDOW_MS →
          (w.count ≥ cfg'.limit →
            consumeRetryBudget cfg' now store = (false, w)) ∧
          (w.count < cfg'.limit →
            consumeRetryBudget cfg' now store =
              (true, { w with count := w.count + 1 }))) := by
  refine ⟨consumeTrace_fixed_window cfg ts t0 hts,
    fun cfg' now store =>
      ⟨fun hL hr => consumeRetryBudget_reset cfg' now store hL hr,
        fun w hw hlive => ?_⟩⟩
  subst hw
  exact ⟨fun hfull => consumeRetryBudget_deny cfg' now w hlive hfull,
    fun hroom => consumeRetryBudget_increment cfg' now w hlive hroom⟩

/-- C4 witness: limit 2, window 10, calls at 0, 3, 5 inside the fixed
window starting at 0 — at most 2 succeed. -/
theorem c4_retry_budget_witness :
    (consumeTrace ⟨"k", 2, some 10⟩ [0, 3, 5] none).countP
      (fun r => r.2) ≤ 2 :=
  (c4_retry_budget_amended ⟨"k", 2, some 10⟩ [0, 3, 5] 0 (by decide)).1

/-! ## C7: planner output validation (src/agent/geminiPlanner.ts)

`getHealingDecision` parses the Gemini response text with `JSON.parse` and
returns the result cast to `HealingDecision` without validation; only a
parse failure (or a missing API key / HTTP error) falls back to
`heuristicDecision`. Decisions are runtime JSON values, so they are
embedded as `Json`; the planner's network-and-parse step is the oracle
`parsed : Option Json` (`none` = `JSON.parse` threw). -/

def Json.objGet : Json → String → Option Json
  | Json.obj fs, k => Json.getField fs k
  | _, _ => none

def jsTypeofObject : Json → Bool
  | Json.obj _ => true
  | Json.arr _ => true
  | Json.null => true
  | _ => false

def listInfix (p : List Char) : List Char → Bool
  | [] => p.isEmpty
  | c :: rest => p.isPrefixOf (c :: rest) || listInfix p rest

def strContains (s pat : String) : Bool := listInfix pat.data s.data

def jsToString : Json → String
  | Json.null => "null"
  | Json.bool b => if b then "true" else "false"
  | Json.num n => toString n
  | Json.str s => s
  | Json.obj _ => "[object Object]"
  | Json.arr [] => ""
  | Json.arr [Json.null] => ""
  | Json.arr [x] => jsToString x
  | Json.arr (Json.null :: xs) => "," ++ jsToString (Json.arr xs)
  | Json.arr (x :: xs) => jsToString x ++ "," ++ jsToString (Json.arr xs)

structure HealingObservation where
  cycle : Nat
  meta : SmartFetchMeta
  error : Option FetchError
  timestamp : String
  triggerHints : Option Json
deriving Repr, DecidableEq

def HEALING_ACTION_TYPES : List String :=
  ["retry", "refresh_token", "switch_region", "repair_payload",
    "rewrite_request", "adapt_schema", "infer_schema", "use_mock",
    "queue_recovery", "abort"]

def getObservationDetail (o : HealingObservation) : Option Json :=
  match o.error with
  | some err =>
    match err.body with
    | some (Json.obj fs) =>
      match Json.getField fs "detail" with
      | some d =>
        if jsTypeofObject d then some d else some (Json.obj fs)
      | none => some (Json.obj fs)
    | some (Json.arr xs) => some (Json.arr xs)
    | _ => none
  | none => none

def firstTruthy (a b : Json) : Json := if a.truthy then a else b

def detectSchemaHints (o : HealingObservation) : Option Json :=
  let dget : Option Json → String → Json := fun oj k =>
    match oj with
    | some j => (j.objGet k).getD Json.null
    | none => Json.null
  let detail := getObservationDetail o
  let schemaHint := firstTruthy (dget detail "schema_hint")
    (firstTruthy (dget detail "schema") (dget o.triggerHints "schema_hint"))
  if ¬schemaHint.truthy then none
  else
    let fieldMap := firstTruthy ((schemaHint.objGet "field_map").getD .null)
      (firstTruthy ((schemaHint.objGet "fieldMap").getD .null)
        (firstTruthy ((schemaHint.objGet "mapping").getD .null)
          ((schemaHint.objGet "fields").getD .null)))
    let defaults := firstTruthy ((schemaHint.objGet "defaults").getD .null)
      ((schemaHint.objGet "fallbacks").getD .null)
    if ¬fieldMap.truthy ∧ ¬defaults.truthy then none
    else some (Json.obj [("fieldMap", fieldMap), ("defaults", defaults)])

def getRetryBudgetRemaining (o : HealingObservation) : Option Int :=
  match o.error with
  | some err =>
    match err.body with
    | some (Json.obj fs) =>
      match Json.getField fs "detail" with
      | some d =>
        if jsTypeofObject d then
          match d.objGet "retry_budget_remaining" with
          | some (Json.num n) => some n
          | _ => none
        else none
      | none => none
    | _ => none
  | none => none

def isQuotaError (o : HealingObservation) : Bool :=
  let detail : Json :=
    match o.error with
    | some err =>
      match err.body with
      | some (Json.obj fs) => (Json.getField fs "detail").getD Json.null
      | _ => Json.null
    | none => Json.null
  if ¬detail.truthy then false
  else
    let derr := (detail.objGet "error").getD Json.null
    let message :=
      asciiLower (jsToString (if derr.truthy then derr else Json.str ""))
    strContains message "quota" || strContains message "rate" ||
      strContains message "limit"

def observedStatus (o : HealingObservation) : Option Nat :=
  match o.error with
  | some e => e.status
  | none => none

def heuristicDecision (o : HealingObservation) : Json :=
  match detectSchemaHints o with
  | some schemaHints =>
    Json.obj [("action", Json.str "adapt_schema"),
      ("reason", Json.str "Heuristic: schema drift hints detected"),
      ("params", schemaHints)]
  | none =>
    if observedStatus o = some 401 then
      Json.obj [("action", Json.str "refresh_token"),
        ("reason",
          Json.str "Heuristic: unauthorized response requires new token")]
    else if observedStatus o = some 503 then
      match getRetryBudgetRemaining o with
      | some r =>
        if r ≤ 0 then
          Json.obj [("action", Json.str "queue_recovery"),
            ("reason", Json.str
              "Heuristic: retry budget exhausted after region outages"),
            ("params", Json.obj [("delaySeconds", Json.num 30)])]
        else if r ≤ 1 then
          Json.obj [("action", Json.str "use_mock"),
            ("reason", Json.str
              "Heuristic: final retry before degradation; serving cached response")]
        else
          Json.obj [("action", Json.str "switch_region"),
            ("reason", Json.str "Heuristic: region outage detected")]
      | none =>
        Json.obj [("action", Json.str "switch_region"),
          ("reason", Json.str "Heuristic: region outage detected")]
    else if observedStatus o = some 422 then
      Json.obj [("action", Json.str "rewrite_request"),
        ("reason", Json.str "Heuristic: schema validation failed"),
        ("params", o.triggerHints.getD (Json.obj []))]
    else if observedStatus o = some 429 then
      if isQuotaError o then
        Json.obj [("action", Json.str "use_mock"),
          ("reason", Json.str
            "Heuristic: quota exhausted; serve degraded response")]
      else
        Json.obj [("action", Json.str "queue_recovery"),
          ("reason", Json.str "Heuristic: rate limited; retry later"),
          ("params", Json.obj [("delaySeconds", Json.num 15)])]
    else if observedStatus o = some 402 then
      Json.obj [("action", Json.str "use_mock"),
        ("reason", Json.str
          "Heuristic: call budget exhausted; degrade gracefully")]
    else
      Json.obj [("action", Json.str "retry"),
        ("reason", Json.str "Fallback heuristic: default retry")]

def getHealingDecisionFromResponse (parsed : Option Json)
    (o : HealingObservation) : Json :=
  match parsed with
  | some decision => decision
  | none => heuristicDecision o

theorem objGet_action_cons (x : Json) (rest : List (String × Json)) :
    ((Json.obj (("action", x) :: rest)).objGet "action") = some x := by
  simp [Json.objGet, Json.getField]

/-- C7 (amended): a planner response that parses as JSON is returned
verbatim, unknown action names included — nothing is coerced to `retry`;
only the parse-failure fallback `heuristicDecision` is constrained, and
its action is always one of the defined `HealingActionType` values. -/
theorem c7_planner_validation_amended (o : HealingObservation) (j : Json) :
    getHealingDecisionFromResponse (some j) o = j ∧
      getHealingDecisionFromResponse none o = heuristicDecision o ∧
      ((heuristicDecision o).objGet "action").getD Json.null ∈
        HEALING_ACTION_TYPES.map Json.str := by
  refine ⟨rfl, rfl, ?_⟩
  rw [heuristicDecision]
  repeat' split
  all_goals rw [objGet_action_cons]
  all_goals decide

/-- C7 counterexample: the parsed planner output
`{"action": "explode", "reason": "boom"}` is returned as the decision —
its action is not a `HealingActionType` and is not coerced to `retry`. -/
theorem c7_planner_validation_counterexample :
    getHealingDecisionFromResponse
        (some (Json.obj [("action", Json.str "explode"),
          ("reason", Json.str "boom")]))
        ⟨1, ⟨[], 0, "default", [], [], "c"⟩, none, "t", none⟩ =
      Json.obj [("action", Json.str "explode"),
        ("reason", Json.str "boom")] ∧
      ((getHealingDecisionFromResponse
          (some (Json.obj [("action", Json.str "explode"),
            ("reason", Json.str "boom")]))
          ⟨1, ⟨[], 0, "default", [], [], "c"⟩, none, "t", none⟩).objGet
        "action").getD Json.null ∉ HEALING_ACTION_TYPES.map Json.str ∧
      ((getHealingDecisionFromResponse
          (some (Json.obj [("action", Json.str "explode"),
            ("reason", Json.str "boom")]))
          ⟨1, ⟨[], 0, "default", [], [], "c"⟩, none, "t", none⟩).objGet
        "action").getD Json.null ≠ Json.str "retry" := by decide

/-! ## C9: queue_recovery header sanitization (src/agent/toolkit.ts)

`queueForRecovery` POSTs an envelope whose headers pass through
`sanitizeHeaders(headersToObject(state.options.headers))`. The `Headers`
iteration inside `headersToObject` is modeled in insertion order (the
statements below are order-independent), and `JSON.stringify` of the
non-string body is modeled by the serialized value itself (serialization
is injective on the model, and only envelope equality is stated). -/

structure DegradedResponse where
  data : Option Json
  degradation : String
  reason : Option String
  source : Option String
  originalError : Option String
deriving Repr, DecidableEq

structure HealingIntervention where
  cycle : Nat
  action : String
  reason : String
  details : Option Json
deriving Repr, DecidableEq

structure RequestOptions where
  method : Option String
  headers : Option (List (String × String))
  body : Option Json
deriving Repr, DecidableEq

/-- One `decisionLog` entry pushed by `runHealingAgent`
(src/unnamed/part_001): the projections of the planner's decision value. -/
structure DecisionLogEntry where
  cycle : Nat
  action : Option Json
  reason : Option Json
  params : Option Json
deriving Repr, DecidableEq

structure HealingState where
  requestId : String
  url : String
  options : RequestOptions
  regions : List String
  regionIndex : Nat
  regionHistory : List String
  regionHealth : List (String × HealthStatus)
  token : Option String
  cachedResponse : Option Json
  schemaHints : Option SchemaHints
  repairAttempts : Nat
  degraded : Option DegradedResponse
  attempts : List HealingObservation
  interventions : List HealingIntervention
  maxCycles : Nat
  cyclesUsed : Nat
  queued : Option Bool
  correlationId : String
  decisionLog : List DecisionLogEntry

structure ToolkitContext where
  backendBaseUrl : String
  requestId : String
  correlationId : String

def headersToObject (init : Option (List (String × String))) :
    List (String × String) :=
  match init with
  | none => []
  | some l => headersOfList l

def BLOCKED_HEADER_NAMES : List String :=
  ["authorization", "proxy-authorization", "cookie"]

def recordSet (o : List (String × String)) (k v : String) :
    List (String × String) :=
  if o.any (fun p => p.1 = k) then
    o.map (fun p => if p.1 = k then (k, v) else p)
  else
    o ++ [(k, v)]

def sanitizeHeaders (headers : List (String × String)) :
    List (String × String) :=
  headers.foldl
    (fun acc kv =>
      if BLOCKED_HEADER_NAMES.contains (asciiLower kv.1) then acc
      else recordSet acc kv.1 kv.2)
    []

structure QueueEnvelope where
  request_id : String
  correlation_id : String
  endpoint : Json
  provider : Json
  region : String
  method : String
  url : String
  headers : List (String × String)
  body : Option Json
  error_type : Option String
  error_message : Option String
  error_status : Option Nat
  timestamp : String
  retry_count : Nat
deriving Repr, DecidableEq

def queueEnvelope (state : HealingState) (context : ToolkitContext)
    (params : Json) (nowIso : String) : QueueEnvelope :=
  let lastObservation := state.attempts.getLast?
  let activeRegion :=
    if (state.regions.get? state.regionIndex).getD "" = "" then "default"
    else (state.regions.get? state.regionIndex).getD ""
  let methodStr :=
    if state.options.method.getD "" = "" then "GET"
    else state.options.method.getD ""
  { request_id := state.requestId
    correlation_id := context.correlationId
    endpoint := firstTruthy ((params.objGet "endpoint").getD Json.null)
      (Json.str "external-api")
    provider := firstTruthy ((params.objGet "provider").getD Json.null)
      (Json.str "battle-healer")
    region := activeRegion
    method := asciiUpper methodStr
    url := state.url
    headers := sanitizeHeaders (headersToObject state.options.headers)
    body :=
      match state.options.body with
      | some (Json.str s) => some (Json.str s)
      | some j => if j.truthy then some j else none
      | none => none
    error_type :=
      match lastObservation with
      | some o =>
        match o.error with
        | some e => if e.message = "" then none else some e.message
        | none => none
      | none => none
    error_message :=
      match lastObservation with
      | some o =>
        match o.error with
        | some e => some e.message
        | none => none
      | none => none
    error_status :=
      match lastObservation with
      | some o =>
        match o.error with
        | some e => e.status
        | none => none
      | none => none
    timestamp :=
      match lastObservation with
      | some o => o.timestamp
      | none => nowIso
    retry_count :=
      match lastObservation with
      | some o => o.meta.retries
      | none => 0 }

theorem char_toNat_ofNat_valid (n : Nat) (h : n < 55296) :
    (Char.ofNat n).toNat = n := by
  rw [Char.ofNat, dif_pos (Or.inl h)]
  rfl

theorem asciiLowerChar_idem (c : Char) :
    asciiLowerChar (asciiLowerChar c) = asciiLowerChar c := by
  by_cases hc : 65 ≤ c.toNat ∧ c.toNat ≤ 90
  · have h1 : asciiLowerChar c = Char.ofNat (c.toNat + 32) := by
      rw [asciiLowerChar, if_pos hc]
    have h2 : (Char.ofNat (c.toNat + 32)).toNat = c.toNat + 32 :=
      char_toNat_ofNat_valid _ (by omega)
    rw [h1, asciiLowerChar, h2, if_neg (by omega)]
  · have h1 : asciiLowerChar c = c := by
      rw [asciiLowerChar, if_neg hc]
    rw [h1, h1]

theorem asciiLower_idem (s : String) :
    asciiLower (asciiLower s) = asciiLower s := by
  simp only [asciiLower]
  simp [List.map_map, Function.comp_def, asciiLowerChar_idem]

/-- Entries yielded by `sanitizeHeaders` never carry a blocked name. -/
theorem sanitizeHeaders_go_blocked :
    ∀ (l acc : List (String × String)),
      (∀ p ∈ acc, asciiLower p.1 ∉ BLOCKED_HEADER_NAMES) →
      ∀ p ∈ l.foldl
        (fun acc kv =>
          if BLOCKED_HEADER_NAMES.contains (asciiLower kv.1) then acc
          else recordSet acc kv.1 kv.2) acc,
        asciiLower p.1 ∉ BLOCKED_HEADER_NAMES
  | [], acc => fun hacc => by simpa using hacc
  | kv :: l, acc => fun hacc => by
    rw [List.foldl_cons]
    by_cases hb : BLOCKED_HEADER_NAMES.contains (asciiLower kv.1)
    · rw [if_pos hb]
      exact sanitizeHeaders_go_blocked l acc hacc
    · rw [if_neg hb]
      refine sanitizeHeaders_go_blocked l _ ?_
      intro p hp
      rw [recordSet] at hp
      have hkv : asciiLower kv.1 ∉ BLOCKED_HEADER_NAMES := by
        intro hmem
        exact hb (List.contains_iff_exists_mem_beq.mpr
          ⟨_, hmem, by simp⟩)
      split at hp
      · rcases List.mem_map.mp hp with ⟨q, hq, hqe⟩
        by_cases hqk : q.1 = kv.1
        · rw [if_pos hqk] at hqe
          rw [← hqe]
          exact hkv
        · rw [if_neg hqk] at hqe
          rw [← hqe]
          exact hacc q hq
      · rcases List.mem_append.mp hp with h | h
        · exact hacc p h
        · rw [List.mem_singleton.mp h]
          exact hkv

theorem sanitizeHeaders_blocked (h : List (String × String)) :
    ∀ p ∈ sanitizeHeaders h, asciiLower p.1 ∉ BLOCKED_HEADER_NAMES := by
  rw [sanitizeHeaders]
  exact sanitizeHeaders_go_blocked h [] (by simp)

/-- With pairwise-distinct keys (as `headersToObject` produces),
`sanitizeHeaders` is the filter dropping blocked names. -/
theorem sanitizeHeaders_go_filter :
    ∀ (l acc : List (String × String)),
      (∀ k ∈ acc.map Prod.fst, ∀ k' ∈ l.map Prod.fst, k ≠ k') →
      (l.map Prod.fst).Nodup →
      l.foldl
        (fun acc kv =>
          if BLOCKED_HEADER_NAMES.contains (asciiLower kv.1) then acc
          else recordSet acc kv.1 kv.2) acc =
      acc ++ l.filter
        (fun p => !(BLOCKED_HEADER_NAMES.contains (asciiLower p.1)))
  | [], acc => fun _ _ => by simp
  | kv :: l, acc => fun hdisj hnd => by
    rw [List.foldl_cons, List.filter_cons]
    have hnd' : (l.map Prod.fst).Nodup := by
      rw [List.map_cons, List.nodup_cons] at hnd
      exact hnd.2
    by_cases hb : BLOCKED_HEADER_NAMES.contains (asciiLower kv.1)
    · rw [if_pos hb]
      have : (!BLOCKED_HEADER_NAMES.contains (asciiLower kv.1)) = false := by
        rw [hb]
        rfl
      rw [this, if_neg (by simp)]
      refine sanitizeHeaders_go_filter l acc ?_ hnd'
      intro k hk k' hk'
      exact hdisj k hk k' (by simp [hk'])
    · rw [if_neg hb]
      have : (!BLOCKED_HEADER_NAMES.contains (asciiLower kv.1)) = true := by
        rw [Bool.not_eq_true']
        exact Bool.eq_false_iff.mpr hb
      rw [this, if_pos rfl]
      have hknotin : ¬acc.any (fun p => p.1 = kv.1) := by
        rw [List.any_eq_true]
        rintro ⟨p, hp, hpe⟩
        exact hdisj p.1 (List.mem_map_of_mem _ hp) kv.1
          (by simp) (by simpa using hpe)
      rw [recordSet, if_neg hknotin]
      rw [sanitizeHeaders_go_filter l (acc ++ [(kv.1, kv.2)]) ?_ hnd']
      · rw [List.append_assoc]
        rfl
      · intro k hk k' hk'
        rw [List.map_append, List.mem_append] at hk
        rcases hk with h | h
        · exact hdisj k h k' (by simp [hk'])
        · simp only [List.map_cons, List.map_nil,
            List.mem_singleton] at h
          subst h
          rw [List.map_cons, List.nodup_cons] at hnd
          intro he
          exact hnd.1 (he ▸ hk')

theorem sanitizeHeaders_eq_filter (h : List (String × String))
    (hnd : (h.map Prod.fst).Nodup) :
    sanitizeHeaders h = h.filter
      (fun p => !(BLOCKED_HEADER_NAMES.contains (asciiLower p.1))) := by
  rw [sanitizeHeaders]
  rw [sanitizeHeaders_go_filter h [] (by simp) hnd]
  rfl

/-- `headersOfList` (the `Headers` constructor) never duplicates a name. -/
theorem headersOfList_go_nodup :
    ∀ (l : List (String × String)) (acc : List (String × String)),
      (acc.map Prod.fst).Nodup →
      (((l.foldl
        (fun acc p =>
          if acc.any (fun q => q.1 = asciiLower p.1) then
            acc.map (fun q =>
              if q.1 = asciiLower p.1 then (q.1, q.2 ++ ", " ++ p.2) else q)
          else
            acc ++ [(asciiLower p.1, p.2)]) acc).map Prod.fst)).Nodup
  | [], acc => fun hacc => hacc
  | p :: l, acc => fun hacc => by
    rw [List.foldl_cons]
    by_cases hany : acc.any (fun q => q.1 = asciiLower p.1)
    · rw [if_pos hany]
      refine headersOfList_go_nodup l _ ?_
      have : ((acc.map (fun q =>
          if q.1 = asciiLower p.1 then (q.1, q.2 ++ ", " ++ p.2) else q)).map
            Prod.fst) = acc.map Prod.fst := by
        rw [List.map_map]
        refine List.map_congr_left ?_
        intro q _
        by_cases hq : q.1 = asciiLower p.1
        · rw [Function.comp_apply, if_pos hq]
        · rw [Function.comp_apply, if_neg hq]
      rw [this]
      exact hacc
    · rw [if_neg hany]
      refine headersOfList_go_nodup l _ ?_
      rw [List.map_append]
      refine List.Nodup.append hacc (by simp) ?_
      intro k hk hk'
      simp only [List.map_cons, List.map_nil, List.mem_singleton] at hk'
      subst hk'
      rw [List.any_eq_true] at hany
      rcases List.mem_map.mp hk with ⟨q, hq, hqe⟩
      exact hany ⟨q, hq, by simpa using hqe⟩

theorem headersToObject_nodup (init : Option (List (String × String))) :
    ((headersToObject init).map Prod.fst).Nodup := by
  match init with
  | none => simp [headersToObject]
  | some l =>
    rw [headersToObject, headersOfList]
    exact headersOfList_go_nodup l [] (by simp)

/-- Raw header lists that agree everywhere except possibly on the values
of blocked names. -/
def HeadersAgreeOutsideBlocked (l1 l2 : List (String × String)) : Prop :=
  List.Forall₂
    (fun p q => p.1 = q.1 ∧
      (asciiLower p.1 ∉ BLOCKED_HEADER_NAMES → p.2 = q.2)) l1 l2

/-- Normalized (`Headers`) lists that agree except on blocked values:
keys are equal and already lowercase. -/
def NormalizedAgree (l1 l2 : List (String × String)) : Prop :=
  List.Forall₂
    (fun p q => p.1 = q.1 ∧ asciiLower p.1 = p.1 ∧
      (p.1 ∉ BLOCKED_HEADER_NAMES → p.2 = q.2)) l1 l2

theorem NormalizedAgree.keys_eq {l1 l2 : List (String × String)}
    (h : NormalizedAgree l1 l2) : l1.map Prod.fst = l2.map Prod.fst := by
  induction h with
  | nil => rfl
  | cons hpq _ ih => simp [ih, hpq.1]

theorem any_fst_eq (k : String) : ∀ acc : List (String × String),
    (acc.any fun r => r.1 = k) = ((acc.map Prod.fst).any fun x => x = k)
  | [] => rfl
  | p :: acc => by
    rw [List.any_cons, List.map_cons, List.any_cons, any_fst_eq k acc]

theorem forall2_snoc {α β : Type} {R : α → β → Prop}
    {l1 : List α} {l2 : List β} (h : List.Forall₂ R l1 l2) {a : α} {b : β}
    (hab : R a b) : List.Forall₂ R (l1 ++ [a]) (l2 ++ [b]) := by
  induction h with
  | nil => exact List.Forall₂.cons hab List.Forall₂.nil
  | cons h1 _ ih => exact List.Forall₂.cons h1 ih

theorem any_key_congr {acc1 acc2 : List (String × String)}
    (hkeys : acc1.map Prod.fst = acc2.map Prod.fst) (k : String) :
    (acc1.any fun r => r.1 = k) = (acc2.any fun r => r.1 = k) := by
  rw [any_fst_eq, any_fst_eq, hkeys]

theorem normalizedAgree_merge (k : String) (v1 v2 : String)
    (hv : k ∉ BLOCKED_HEADER_NAMES → v1 = v2) :
    ∀ {acc1 acc2 : List (String × String)},
      NormalizedAgree acc1 acc2 →
      NormalizedAgree
        (acc1.map (fun q =>
          if q.1 = k then (q.1, q.2 ++ ", " ++ v1) else q))
        (acc2.map (fun q =>
          if q.1 = k then (q.1, q.2 ++ ", " ++ v2) else q)) := by
  intro acc1 acc2 h
  induction h with
  | nil => exact List.Forall₂.nil
  | @cons a b l1 l2 hab htl ih =>
    rw [List.map_cons, List.map_cons]
    obtain ⟨hk, hlow, hval⟩ := hab
    refine List.Forall₂.cons ?_ ih
    by_cases hq : a.1 = k
    · rw [if_pos hq, if_pos (hk ▸ hq)]
      refine ⟨hk, hlow, ?_⟩
      intro hnb
      rw [hval hnb, hv (hq ▸ hnb), hk]
    · rw [if_neg hq, if_neg (hk ▸ hq)]
      exact ⟨hk, hlow, hval⟩

theorem headersOfList_go_agree :
    ∀ {l1 l2 : List (String × String)},
      HeadersAgreeOutsideBlocked l1 l2 →
      ∀ {acc1 acc2 : List (String × String)},
      NormalizedAgree acc1 acc2 →
      NormalizedAgree
        (l1.foldl
          (fun acc p =>
            if acc.any (fun q => q.1 = asciiLower p.1) then
              acc.map (fun q =>
                if q.1 = asciiLower p.1 then (q.1, q.2 ++ ", " ++ p.2)
                else q)
            else
              acc ++ [(asciiLower p.1, p.2)]) acc1)
        (l2.foldl
          (fun acc p =>
            if acc.any (fun q => q.1 = asciiLower p.1) then
              acc.map (fun q =>
                if q.1 = asciiLower p.1 then (q.1, q.2 ++ ", " ++ p.2)
                else q)
            else
              acc ++ [(asciiLower p.1, p.2)]) acc2) := by
  intro l1 l2 hrel
  induction hrel with
  | nil => exact fun hacc => hacc
  | @cons p q t1 t2 hpq htl ih =>
    intro acc1 acc2 hacc
    rw [List.foldl_cons, List.foldl_cons]
    obtain ⟨hk, hval⟩ := hpq
    have hklow : asciiLower q.1 = asciiLower p.1 := by rw [hk]
    have hany := any_key_congr (NormalizedAgree.keys_eq hacc)
      (asciiLower p.1)
    by_cases hc : acc1.any fun r => r.1 = asciiLower p.1
    · have hc2 : acc2.any fun r => r.1 = asciiLower q.1 := by
        rw [hklow, ← hany]
        exact hc
      rw [if_pos hc, if_pos hc2, hklow]
      exact ih (normalizedAgree_merge (asciiLower p.1) p.2 q.2 hval hacc)
    · have hc2 : ¬acc2.any fun r => r.1 = asciiLower q.1 := by
        rw [hklow, ← hany]
        exact hc
      rw [if_neg hc, if_neg hc2, hklow]
      exact ih (forall2_snoc hacc
        ⟨rfl, asciiLower_idem p.1, fun hnb => hval hnb⟩)

theorem normalizedAgree_filter :
    ∀ {l1 l2 : List (String × String)},
      NormalizedAgree l1 l2 →
      l1.filter
        (fun p => !(BLOCKED_HEADER_NAMES.contains (asciiLower p.1))) =
      l2.filter
        (fun p => !(BLOCKED_HEADER_NAMES.contains (asciiLower p.1))) := by
  intro l1 l2 h
  induction h with
  | nil => rfl
  | @cons a b t1 t2 hab htl ih =>
    obtain ⟨hk, hlow, hval⟩ := hab
    rw [List.filter_cons, List.filter_cons, ← hk]
    by_cases hp : BLOCKED_HEADER_NAMES.contains (asciiLower a.1)
    · rw [hp]
      simpa using ih
    · have hp' : (!BLOCKED_HEADER_NAMES.contains (asciiLower a.1)) =
          true := by
        rw [Bool.not_eq_true']
        exact Bool.eq_false_iff.mpr hp
      rw [hp', if_pos rfl, if_pos rfl, ih]
      have hnb : a.1 ∉ BLOCKED_HEADER_NAMES := by
        intro hmem
        refine hp ?_
        rw [hlow, List.contains, List.elem_iff]
        exact hmem
      have : a = b := Prod.ext hk (hval hnb)
      rw [this]

theorem sanitizeHeaders_headersToObject_agree
    {o1 o2 : Option (List (String × String))}
    (h : o1 = none ∧ o2 = none ∨ ∃ l1 l2, o1 = some l1 ∧ o2 = some l2 ∧
      HeadersAgreeOutsideBlocked l1 l2) :
    sanitizeHeaders (headersToObject o1) =
      sanitizeHeaders (headersToObject o2) := by
  rcases h with ⟨rfl, rfl⟩ | ⟨l1, l2, rfl, rfl, hrel⟩
  · rfl
  · rw [sanitizeHeaders_eq_filter _ (headersToObject_nodup (some l1)),
      sanitizeHeaders_eq_filter _ (headersToObject_nodup (some l2))]
    refine normalizedAgree_filter ?_
    rw [headersToObject, headersToObject, headersOfList, headersOfList]
    exact headersOfList_go_agree hrel List.Forall₂.nil

/-- C9: the queued envelope holds no authorization, proxy-authorization,
or cookie header under case-insensitive comparison; its headers are
exactly the non-blocked entries of the normalized request headers (all
others preserved); and two states differing only in the values of blocked
headers produce identical envelopes. -/
theorem c9_queue_sanitizes_headers (s : HealingState) (ctx : ToolkitContext) (params : Json)
    (nowIso : String) (o2 : Option (List (String × String)))
    (hrel : s.options.headers = none ∧ o2 = none ∨
      ∃ l1 l2, s.options.headers = some l1 ∧ o2 = some l2 ∧
        HeadersAgreeOutsideBlocked l1 l2) :
    (∀ p ∈ (queueEnvelope s ctx params nowIso).headers,
      asciiLower p.1 ∉ BLOCKED_HEADER_NAMES) ∧
      (queueEnvelope s ctx params nowIso).headers =
        (headersToObject s.options.headers).filter
          (fun p => !(BLOCKED_HEADER_NAMES.contains (asciiLower p.1))) ∧
      queueEnvelope { s with options := { s.options with headers := o2 } }
          ctx params nowIso =
        queueEnvelope s ctx params nowIso := by
  refine ⟨?_, ?_, ?_⟩
  · exact sanitizeHeaders_blocked _
  · exact sanitizeHeaders_eq_filter _ (headersToObject_nodup _)
  · have hs : sanitizeHeaders (headersToObject o2) =
        sanitizeHeaders (headersToObject s.options.headers) :=
      sanitizeHeaders_headersToObject_agree (by
        rcases hrel with ⟨h1, h2⟩ | ⟨l1, l2, h1, h2, hr⟩
        · exact Or.inl ⟨h2, h1⟩
        · refine Or.inr ⟨l2, l1, h2, h1, ?_⟩
          refine List.Forall₂.flip ?_
          refine List.Forall₂.imp ?_ hr
          intro a b hab
          exact ⟨hab.1.symm, fun hnb => (hab.2 (hab.1 ▸ hnb)).symm⟩)
    simp only [queueEnvelope]
    rw [hs]

/-- C9 witness: two states differing in their `Authorization` and
`Cookie` values queue the same envelope. -/
theorem c9_queue_sanitizes_headers_witness :
    queueEnvelope
        { requestId := "req-1", url := "/external-api",
          options :=
            { method := some "post",
              headers := some [("Authorization", "Bearer other"),
                ("Cookie", "b=2"), ("X-Trace", "t-1")],
              body := none },
          regions := ["aws-us-east-1"], regionIndex := 0,
          regionHistory := [], regionHealth := [], token := none,
          cachedResponse := none, schemaHints := none,
          repairAttempts := 0, degraded := none, attempts := [],
          interventions := [], maxCycles := 6, cyclesUsed := 2,
          queued := none, correlationId := "corr-9",
          decisionLog := [] }
        ⟨"http://backend", "req-1", "corr-9"⟩ (Json.obj []) "2024-01-01" =
      queueEnvelope
        { requestId := "req-1", url := "/external-api",
          options :=
            { method := some "post",
              headers := some [("Authorization", "Bearer secret"),
                ("Cookie", "a=1"), ("X-Trace", "t-1")],
              body := none },
          regions := ["aws-us-east-1"], regionIndex := 0,
          regionHistory := [], regionHealth := [], token := none,
          cachedResponse := none, schemaHints := none,
          repairAttempts := 0, degraded := none, attempts := [],
          interventions := [], maxCycles := 6, cyclesUsed := 2,
          queued := none, correlationId := "corr-9",
          decisionLog := [] }
        ⟨"http://backend", "req-1", "corr-9"⟩ (Json.obj []) "2024-01-01" :=
  (c9_queue_sanitizes_headers
    { requestId := "req-1", url := "/external-api",
      options :=
        { method := some "post",
          headers := some [("Authorization", "Bearer secret"),
            ("Cookie", "a=1"), ("X-Trace", "t-1")],
          body := none },
      regions := ["aws-us-east-1"], regionIndex := 0,
      regionHistory := [], regionHealth := [], token := none,
      cachedResponse := none, schemaHints := none,
      repairAttempts := 0, degraded := none, attempts := [],
      interventions := [], maxCycles := 6, cyclesUsed := 2,
      queued := none, correlationId := "corr-9",
      decisionLog := [] }
    ⟨"http://backend", "req-1", "corr-9"⟩ (Json.obj []) "2024-01-01"
    (some [("Authorization", "Bearer other"), ("Cookie", "b=2"),
      ("X-Trace", "t-1")])
    (Or.inr ⟨[("Authorization", "Bearer secret"), ("Cookie", "a=1"),
        ("X-Trace", "t-1")],
      [("Authorization", "Bearer other"), ("Cookie", "b=2"),
        ("X-Trace", "t-1")], rfl, rfl,
      List.Forall₂.cons
        ⟨rfl, fun hn => absurd (by decide) hn⟩
        (List.Forall₂.cons ⟨rfl, fun hn => absurd (by decide) hn⟩
          (List.Forall₂.cons ⟨rfl, fun _ => rfl⟩
            List.Forall₂.nil))⟩)).2.2

/-! ## C1 and C8: the Supervisor (src/unnamed/part_001, src/agent/toolkit.ts)

`runHealingAgent` and `executeAction` are embedded over an `AgentEnv` of
oracles, one per external interaction of a loop iteration (the smartFetch
result, a token delivered by the recovery handler, the planner's decision
value, `fetchTestApiKey`, the mock collaborator, `JSON.parse`, clocks).
Module-level stores (the endpoint repair window, the response cache) are
threaded explicitly and returned in `AgentRun`. `JSON.stringify` is the
serializer `jsonStringify`. A mock-collaborator failure inside the
`use_mock` action rejects the whole call without producing a result, so
runs are modeled with a responding mock; inside the degradation pipeline
the failure is caught and modeled by `pipelineMock = none`. -/

def hexDigit (n : Nat) : Char :=
  if n < 10 then Char.ofNat (48 + n) else Char.ofNat (87 + n)

def jsonEscapeChar (c : Char) : String :=
  if c = '"' then "\\\""
  else if c = '\\' then "\\\\"
  else if c = Char.ofNat 8 then "\\b"
  else if c = Char.ofNat 9 then "\\t"
  else if c = Char.ofNat 10 then "\\n"
  else if c = Char.ofNat 12 then "\\f"
  else if c = Char.ofNat 13 then "\\r"
  else if c.toNat < 32 then
    "\\u00" ++ String.mk [hexDigit (c.toNat / 16), hexDigit (c.toNat % 16)]
  else String.singleton c

def jsonQuote (s : String) : String :=
  "\"" ++ (s.data.map jsonEscapeChar).foldl (fun a b => a ++ b) "" ++ "\""

mutual

def jsonStringify : Json → String
  | .null => "null"
  | .bool b => if b then "true" else "false"
  | .num n => toString n
  | .str s => jsonQuote s
  | .arr xs => "[" ++ jsonStringifyArr xs ++ "]"
  | .obj fs => "\x7b" ++ jsonStringifyObj fs ++ "\x7d"

def jsonStringifyArr : List Json → String
  | [] => ""
  | [x] => jsonStringify x
  | x :: y :: xs => jsonStringify x ++ "," ++ jsonStringifyArr (y :: xs)

def jsonStringifyObj : List (String × Json) → String
  | [] => ""
  | [(k, v)] => jsonQuote k ++ ":" ++ jsonStringify v
  | (k, v) :: g :: fs =>
    jsonQuote k ++ ":" ++ jsonStringify v ++ "," ++
      jsonStringifyObj (g :: fs)

end

def healthSet (h : List (String × HealthStatus)) (k : String)
    (v : HealthStatus) : List (String × HealthStatus) :=
  if h.any (fun p => p.1 = k) then
    h.map (fun p => if p.1 = k then (k, v) else p)
  else
    h ++ [(k, v)]

structure RepairWindow where
  count : Nat
  windowStart : Int
deriving Repr, DecidableEq

def MAX_REPAIR_ATTEMPTS : Nat := 2
def REPAIR_WINDOW_MS : Int := 60000
def REPAIR_WINDOW_LIMIT : Nat := 4
def REPAIR_HEADER : String := "X-Healer-Repair-Attempt"

structure DegradationConfig where
  cacheKey : Option String
  enableStaleCache : Option Bool
  staleTtlMs : Option Int
  enableMock : Option Bool
  mockSchema : Option Json
  mockExample : Option Json
deriving Repr, DecidableEq

structure CacheEntry where
  data : Option Json
  cachedAt : Int
deriving Repr, DecidableEq

def rememberResponse (store : List (String × CacheEntry)) (key : String)
    (data : Option Json) (now : Int) : List (String × CacheEntry) :=
  if store.any (fun p => p.1 = key) then
    store.map (fun p => if p.1 = key then (key, ⟨data, now⟩) else p)
  else
    store ++ [(key, ⟨data, now⟩)]

def recallResponse (store : List (String × CacheEntry)) (key : String)
    (ttlMs : Int) (now : Int) : Option CacheEntry :=
  match (store.find? (fun p => p.1 = key)).map (fun p => p.2) with
  | none => none
  | some entry =>
    if ttlMs > 0 ∧ now - entry.cachedAt > ttlMs then none
    else some entry

def rememberSuccessfulResponse (store : List (String × CacheEntry))
    (key : String) (data : Option Json) (config : Option DegradationConfig)
    (now : Int) : List (String × CacheEntry) :=
  if (config.bind (fun c => c.enableStaleCache)) = some false then store
  else rememberResponse store key data now

structure HealingAgentResult where
  success : Bool
  data : Option Json
  degraded : DegradedResponse
  finalError : Option FetchError
  state : HealingState

/-- Oracles for the Supervisor's external interactions, indexed by the
loop iteration that performs them. -/
structure AgentEnv where
  transport : Nat → SmartFetchResult
  refreshedToken : Nat → Option String
  planner : Nat → Json
  apiKey : Nat → String
  mock : Nat → DegradedResponse
  pipelineMock : Option DegradedResponse
  parseJson : String → Option Json
  now : Nat → Int
  nowIso : Nat → String
  pipelineNow : Int
  genRequestId : String
  initialToken : String

def createIntervention (state : HealingState) (action : String)
    (reason : String) (details : Option Json) : HealingIntervention :=
  ⟨state.cyclesUsed, action, reason, details⟩

structure ExecOut where
  updatedState : HealingState
  intervention : HealingIntervention
  repairWindow : Option RepairWindow
  queuedEnvelope : Option QueueEnvelope

def withRepairHeaders (headersInit : Option (List (String × String)))
    (attempt : Nat) : List (String × String) :=
  headerSet (headersOfList (headersInit.getD [])) REPAIR_HEADER
    (toString attempt)

def getEndpointKey (url : String) : String := url

def recordEntriesStr : Json → List (String × String)
  | Json.obj fs => fs.map (fun p => (p.1, jsToString p.2))
  | _ => []

def recordEntriesJson : Json → List (String × Json)
  | Json.obj fs => fs
  | _ => []

def mergeSchemaHints (current : Option SchemaHints) (params : Json) :
    SchemaHints :=
  let fmj := (params.objGet "fieldMap").getD Json.null
  let paramFieldMap :=
    if fmj.truthy then fmj
    else
      match params.objGet "mapping" with
      | some v => if v = Json.null then Json.obj [] else v
      | none => Json.obj []
  let sc := (params.objGet "schema").getD Json.null
  let nestedMap := firstTruthy ((sc.objGet "fieldMap").getD Json.null)
    (Json.obj [])
  let fieldMap :=
    ((current.bind (fun c => c.fieldMap)).getD [] ++
        recordEntriesStr paramFieldMap ++ recordEntriesStr nestedMap).foldl
      (fun acc p => recordSet acc p.1 p.2) []
  let paramDefaults := firstTruthy ((params.objGet "defaults").getD Json.null)
    (firstTruthy ((sc.objGet "defaults").getD Json.null) (Json.obj []))
  let defaults :=
    ((current.bind (fun c => c.defaults)).getD [] ++
        recordEntriesJson paramDefaults).foldl
      (fun acc p => Json.setField acc p.1 p.2) []
  { fieldMap :=
      if fieldMap.length ≠ 0 then some fieldMap
      else current.bind (fun c => c.fieldMap)
    defaults :=
      if defaults.length ≠ 0 then some defaults
      else current.bind (fun c => c.defaults) }

inductive RepairGuardResult where
  | allowed : Option RepairWindow → RepairGuardResult
  | blocked : HealingState → HealingIntervention → RepairGuardResult

def ensureRepairAllowance (state : HealingState)
    (rw : Option RepairWindow) (now : Int) : RepairGuardResult :=
  if state.repairAttempts ≥ MAX_REPAIR_ATTEMPTS then
    .blocked { state with cyclesUsed := state.maxCycles }
      (createIntervention state "abort"
        ("Max repair attempts (" ++ toString MAX_REPAIR_ATTEMPTS ++
          ") reached")
        (some (Json.obj [("repairAttempts", Json.num state.repairAttempts)])))
  else
    match rw with
    | none => .allowed (some ⟨1, now⟩)
    | some existing =>
      if now - existing.windowStart > REPAIR_WINDOW_MS then
        .allowed (some ⟨1, now⟩)
      else if existing.count ≥ REPAIR_WINDOW_LIMIT then
        .blocked { state with cyclesUsed := state.maxCycles }
          (createIntervention state "abort"
            "Endpoint repair throttle reached"
            (some (Json.obj
              [("endpoint", Json.str (getEndpointKey state.url))])))
      else .allowed (some ⟨existing.count + 1, existing.windowStart⟩)

def repairPayloadBody (parsed : Json) (now : Int) : Json :=
  match parsed with
  | Json.obj fs =>
    let step1 :=
      if ¬((Json.getField fs "transactionId").getD Json.null).truthy then
        Json.setField fs "transactionId"
          (Json.str ("auto-" ++ toString now))
      else fs
    let step2 :=
      match Json.getField step1 "amount" with
      | none => Json.setField step1 "amount" (Json.num 0)
      | some Json.null => Json.setField step1 "amount" (Json.num 0)
      | some _ => step1
    Json.obj step2
  | j => j

def executeAction (action : Option Json) (state : HealingState)
    (context : ToolkitContext) (params : Json) (k : Nat) (env : AgentEnv)
    (rw : Option RepairWindow) : ExecOut :=
  if action = some (Json.str "refresh_token") then
    { updatedState := { state with token := some (env.apiKey k) }
      intervention :=
        createIntervention state "refresh_token" "Issued new API token" none
      repairWindow := rw
      queuedEnvelope := none }
  else if action = some (Json.str "switch_region") then
    let currentRegionEndpoint :=
      (state.regions.get? state.regionIndex).getD ""
    let currentRegionNode := findRegionByEndpoint currentRegionEndpoint
    match resolveNextRegion (currentRegionNode.map (fun n => n.id))
        state.regionHealth [] with
    | none =>
      { updatedState := state
        intervention := createIntervention state "switch_region"
          "No alternate region available" none
        repairWindow := rw
        queuedEnvelope := none }
    | some nextNode =>
      let idx := state.regions.findIdx? (fun item => item = nextNode.endpoint)
      let nextIndex := idx.getD state.regions.length
      let updatedRegions :=
        if nextIndex < state.regions.length then state.regions
        else state.regions ++ [nextNode.endpoint]
      { updatedState := { state with
          regions := updatedRegions
          regionIndex := nextIndex }
        intervention := createIntervention state "switch_region"
          "Switching to alternate region"
          (some (Json.obj [("region", Json.str nextNode.id)]))
        repairWindow := rw
        queuedEnvelope := none }
  else if action = some (Json.str "use_mock") then
    let degraded := env.mock k
    { updatedState := { state with
        cachedResponse := degraded.data
        degraded := some degraded }
      intervention := createIntervention state "use_mock"
        (match degraded.reason with
          | some r => if r = "" then "Returning degraded response" else r
          | none => "Returning degraded response")
        (some (Json.obj [("degradation", Json.str degraded.degradation)]))
      repairWindow := rw
      queuedEnvelope := none }
  else if action = some (Json.str "repair_payload") then
    match ensureRepairAllowance state rw (env.now k) with
    | .blocked st intervention =>
      { updatedState := st, intervention := intervention,
        repairWindow := rw, queuedEnvelope := none }
    | .allowed rw' =>
      match state.options.body with
      | none =>
        { updatedState := state
          intervention := createIntervention state "repair_payload"
            "Auto-repaired payload schema" none
          repairWindow := rw'
          queuedEnvelope := none }
      | some (Json.str s) =>
        match env.parseJson s with
        | some parsed =>
          if parsed.truthy ∧ jsTypeofObject parsed then
            { updatedState := { state with
                options := { state.options with
                  headers := some (withRepairHeaders state.options.headers
                    (state.repairAttempts + 1))
                  body := some (Json.str (jsonStringify
                    (repairPayloadBody parsed (env.now k)))) }
                repairAttempts := state.repairAttempts + 1 }
              intervention := createIntervention state "repair_payload"
                "Auto-repaired payload schema" none
              repairWindow := rw'
              queuedEnvelope := none }
          else
            { updatedState := state
              intervention := createIntervention state "repair_payload"
                "Auto-repaired payload schema" none
              repairWindow := rw'
              queuedEnvelope := none }
        | none =>
          { updatedState := { state with
              options := { state.options with
                headers := some (withRepairHeaders state.options.headers
                  (state.repairAttempts + 1))
                body := some (Json.str (jsonStringify (Json.obj
                  [("transactionId",
                    Json.str ("fallback-" ++ toString (env.now k))),
                    ("amount", Json.num 0)]))) }
              repairAttempts := state.repairAttempts + 1 }
            intervention := createIntervention state "repair_payload"
              "Auto-repaired payload schema" none
            repairWindow := rw'
            queuedEnvelope := none }
      | some j =>
        if j.truthy ∧ jsTypeofObject j then
          { updatedState := { state with
              options := { state.options with
                headers := some (withRepairHeaders state.options.headers
                  (state.repairAttempts + 1))
                body := some (Json.str (jsonStringify
                  (repairPayloadBody j (env.now k)))) }
              repairAttempts := state.repairAttempts + 1 }
            intervention := createIntervention state "repair_payload"
              "Auto-repaired payload schema" none
            repairWindow := rw'
            queuedEnvelope := none }
        else
          { updatedState := state
            intervention := createIntervention state "repair_payload"
              "Auto-repaired payload schema" none
            repairWindow := rw'
            queuedEnvelope := none }
  else if action = some (Json.str "rewrite_request") then
    match ensureRepairAllowance state rw (env.now k) with
    | .blocked st intervention =>
      { updatedState := st, intervention := intervention,
        repairWindow := rw, queuedEnvelope := none }
    | .allowed rw' =>
      let candidateBody :=
        match params.objGet "body" with
        | some v => if v = Json.null then none else some v
        | none =>
          match params.objGet "newBody" with
          | some v => if v = Json.null then none else some v
          | none =>
            match params.objGet "payload" with
            | some v => if v = Json.null then none else some v
            | none =>
              match params.objGet "rewrittenBody" with
              | some v => if v = Json.null then none else some v
              | none => none
      match candidateBody with
      | none =>
        { updatedState := state
          intervention := createIntervention state "rewrite_request"
            "Planner requested rewrite but no payload provided" none
          repairWindow := rw'
          queuedEnvelope := none }
      | some cb =>
        let serialized :=
          match cb with
          | Json.str s => s
          | j => jsonStringify j
        let baseHeaders := withRepairHeaders state.options.headers
          (state.repairAttempts + 1)
        let headers :=
          match params.objGet "headers" with
          | some (Json.obj hfs) =>
            if (Json.obj hfs).truthy then
              hfs.foldl (fun acc p => headerSet acc p.1 (jsToString p.2))
                baseHeaders
            else baseHeaders
          | _ => baseHeaders
        { updatedState := { state with
            options := { state.options with
              body := some (Json.str serialized)
              headers := some headers }
            repairAttempts := state.repairAttempts + 1 }
          intervention := createIntervention state "rewrite_request"
            (match params.objGet "notes" with
              | some v => if v.truthy then jsToString v
                else "Rewriting payload per Gemini plan"
              | none => "Rewriting payload per Gemini plan")
            (some (Json.obj
              [("notes", (params.objGet "notes").getD Json.null)]))
          repairWindow := rw'
          queuedEnvelope := none }
  else if action = some (Json.str "queue_recovery") then
    { updatedState := { state with queued := some true }
      intervention := createIntervention state "queue_recovery"
        "Queued request for async recovery" (some params)
      repairWindow := rw
      queuedEnvelope := some (queueEnvelope state context params
        (env.nowIso k)) }
  else if action = some (Json.str "adapt_schema") ∨
      action = some (Json.str "infer_schema") then
    let nextHints := mergeSchemaHints state.schemaHints params
    let updatedResponse :=
      match state.cachedResponse with
      | some j =>
        if j.truthy then some (applySchemaAdaptation nextHints j)
        else some j
      | none => none
    { updatedState := { state with
        schemaHints := some nextHints
        cachedResponse := updatedResponse }
      intervention := createIntervention state "adapt_schema"
        "Adjusting schema expectations"
        (some (Json.obj
          [("fieldMap",
            match nextHints.fieldMap with
            | some fm => Json.obj (fm.map (fun p => (p.1, Json.str p.2)))
            | none => Json.null),
            ("defaults",
              match nextHints.defaults with
              | some d => Json.obj d
              | none => Json.null)]))
      repairWindow := rw
      queuedEnvelope := none }
  else if action = some (Json.str "retry") then
    { updatedState := state
      intervention := createIntervention state "retry"
        (match params.objGet "reason" with
          | some v => if v.truthy then jsToString v else "Retrying request"
          | none => "Retrying request") none
      repairWindow := rw
      queuedEnvelope := none }
  else
    { updatedState := { state with cyclesUsed := state.maxCycles }
      intervention := createIntervention state "abort"
        (match params.objGet "reason" with
          | some v => if v.truthy then jsToString v else "Abort requested"
          | none => "Abort requested") none
      repairWindow := rw
      queuedEnvelope := none }

def applyDegradationPipeline (config : Option DegradationConfig)
    (cacheKey : String) (lastError : Option FetchError)
    (store : List (String × CacheEntry)) (env : AgentEnv) :
    Option DegradedResponse :=
  let enableStaleCache := (config.bind (fun c => c.enableStaleCache)).getD
    true
  let staleTtlMs := (config.bind (fun c => c.staleTtlMs)).getD 300000
  let enableMock := (config.bind (fun c => c.enableMock)).getD true
  let fromCache :=
    if enableStaleCache then
      match recallResponse store cacheKey staleTtlMs env.pipelineNow with
      | some cached =>
        some (DegradedResponse.mk cached.data "stale-cache"
          (some "Using last known good value while provider heals")
          (some "cache") (lastError.map (fun e => e.message)))
      | none => none
    else none
  match fromCache with
  | some d => some d
  | none => if enableMock then env.pipelineMock else none

structure HealingAgentParams where
  url : String
  options : RequestOptions
  regions : Option (List String)
  requestId : Option String
  correlationId : Option String
  maxCycles : Option Nat
  backendBaseUrl : String
  degradation : Option DegradationConfig

structure AgentRun where
  result : HealingAgentResult
  cacheStore : List (String × CacheEntry)
  repairWindow : Option RepairWindow
  queuedEnvelopes : List QueueEnvelope

def makeCacheKey (config : Option DegradationConfig) (url : String)
    (regionHint : Option String) : String :=
  let fallbackKey := url ++ "::" ++
    (match regionHint with
      | some h => if h = "" then "default" else h
      | none => "default")
  match config.bind (fun c => c.cacheKey) with
  | some ck => if ck = "" then fallbackKey else ck
  | none => fallbackKey

def runHealingAgentFinish (env : AgentEnv)
    (config : Option DegradationConfig) (url : String)
    (state : HealingState) (rw : Option RepairWindow)
    (cache : List (String × CacheEntry))
    (queued : List QueueEnvelope) : AgentRun :=
  let lastError := (state.attempts.getLast?).bind (fun o => o.error)
  match applyDegradationPipeline config
      (makeCacheKey config url state.regionHistory.getLast?) lastError
      cache env with
  | some fb =>
    { result :=
        { success := true
          data := fb.data
          degraded := fb
          finalError := none
          state :=
            { state with
              cachedResponse := fb.data
              degraded := some fb } }
      cacheStore := cache
      repairWindow := rw
      queuedEnvelopes := queued }
  | none =>
    { result :=
        { success := false
          data := none
          degraded := DegradedResponse.mk none "none" none none
            (lastError.map (fun e => e.message))
          finalError := some (lastError.getD ⟨none, "Agent exhausted", none⟩)
          state := state }
      cacheStore := cache
      repairWindow := rw
      queuedEnvelopes := queued }

def applyRefreshedToken (state : HealingState) (t : Option String) :
    HealingState :=
  match t with
  | some tok => { state with token := some tok }
  | none => state

def successState (state0 : HealingState) (currentRegionId : String)
    (normalizedData : Option Json) (degraded : DegradedResponse) :
    HealingState :=
  { state0 with
    cachedResponse := normalizedData
    regionHealth := healthSet state0.regionHealth currentRegionId
      HealthStatus.healthy
    degraded := some degraded }

def observeState (state0 : HealingState)
    (observation : HealingObservation) (currentRegionId : String)
    (unhealthyStatus : Option HealthStatus) : HealingState :=
  { state0 with
    attempts := state0.attempts ++ [observation]
    cyclesUsed := state0.cyclesUsed + 1
    regionHistory := state0.regionHistory ++ [currentRegionId]
    regionHealth :=
      match unhealthyStatus with
      | some u => healthSet state0.regionHealth currentRegionId u
      | none => state0.regionHealth }

def logDecision (state1 : HealingState) (cycle : Nat) (decision : Json) :
    HealingState :=
  { state1 with
    decisionLog := state1.decisionLog ++
      [⟨cycle, decision.objGet "action", decision.objGet "reason",
        decision.objGet "params"⟩] }

def afterExec (ex : ExecOut) : HealingState :=
  { ex.updatedState with
    interventions := ex.updatedState.interventions ++ [ex.intervention] }

def runHealingAgentGo (env : AgentEnv)
    (config : Option DegradationConfig) (url backendBaseUrl : String) :
    Nat → Nat → HealingState → Option RepairWindow →
      List (String × CacheEntry) → List QueueEnvelope → AgentRun
  | 0, _, state, rw, cache, queued =>
    runHealingAgentFinish env config url state rw cache queued
  | fuel + 1, k, state, rw, cache, queued =>
    if state.cyclesUsed < state.maxCycles then
      let region := (state.regions.get? state.regionIndex).getD ""
      let currentRegionId :=
        match findRegionByEndpoint region with
        | some n => n.id
        | none => region
      let result := env.transport k
      let state0 := applyRefreshedToken state (env.refreshedToken k)
      match result.error with
      | none =>
        let normalizedData :=
          match state0.schemaHints with
          | some h => result.data.map (fun d => applySchemaAdaptation h d)
          | none => result.data
        let cache' := rememberSuccessfulResponse cache
          (makeCacheKey config url (some currentRegionId)) normalizedData
          config (env.now k)
        let degraded := DegradedResponse.mk normalizedData "none" none
          none none
        { result :=
            { success := true
              data := normalizedData
              degraded := degraded
              finalError := none
              state := successState state0 currentRegionId normalizedData
                degraded }
          cacheStore := cache'
          repairWindow := rw
          queuedEnvelopes := queued }
      | some err =>
        let observation : HealingObservation :=
          ⟨state0.cyclesUsed, result.meta, some err, env.nowIso k,
            err.body⟩
        let unhealthyStatus : Option HealthStatus :=
          if err.status = some 410 then some HealthStatus.deprecated
          else if err.status = some 503 ∨ err.status = some 429 then
            some HealthStatus.unhealthy
          else none
        let state2 := logDecision
          (observeState state0 observation currentRegionId
            unhealthyStatus)
          observation.cycle (env.planner k)
        let actionValue := (env.planner k).objGet "action"
        let ex := executeAction actionValue state2
          ⟨backendBaseUrl, state2.requestId, state2.correlationId⟩
          (((env.planner k).objGet "params").getD (Json.obj [])) k env rw
        let state3 := afterExec ex
        let queued' := queued ++
          (match ex.queuedEnvelope with
            | some e => [e]
            | none => [])
        if actionValue = some (Json.str "use_mock") then
          let degraded := state3.degraded.getD
            (DegradedResponse.mk state3.cachedResponse "mocked" none none
              none)
          { result :=
              { success := true
                data := degraded.data
                degraded := degraded
                finalError := none
                state := state3 }
            cacheStore := cache
            repairWindow := ex.repairWindow
            queuedEnvelopes := queued' }
        else if actionValue = some (Json.str "queue_recovery") ∨
            actionValue = some (Json.str "abort") then
          runHealingAgentFinish env config url state3 ex.repairWindow
            cache queued'
        else
          runHealingAgentGo env config url backendBaseUrl fuel (k + 1)
            state3 ex.repairWindow cache queued'
    else
      runHealingAgentFinish env config url state rw cache queued

def runHealingAgent (params : HealingAgentParams) (env : AgentEnv)
    (rw : Option RepairWindow) (cache : List (String × CacheEntry)) :
    AgentRun :=
  let regions := params.regions.getD
    (ROUTING_TREE.children.map (fun n => n.endpoint))
  let maxCycles := params.maxCycles.getD 6
  let requestId :=
    match params.requestId with
    | some r => if r = "" then env.genRequestId else r
    | none => env.genRequestId
  let correlationId :=
    match params.correlationId with
    | some c => if c = "" then requestId else c
    | none => requestId
  let initState : HealingState :=
    { requestId := requestId
      url := params.url
      options := params.options
      regions := regions
      regionIndex := 0
      regionHistory := []
      regionHealth := []
      token := some env.initialToken
      cachedResponse := none
      schemaHints := none
      repairAttempts := 0
      degraded := some (DegradedResponse.mk none "none" none none none)
      attempts := []
      interventions := []
      maxCycles := maxCycles
      cyclesUsed := 0
      queued := none
      correlationId := correlationId
      decisionLog := [] }
  runHealingAgentGo env params.degradation params.url
    params.backendBaseUrl (maxCycles + 1) 0 initState rw cache []

theorem applyRefreshedToken_attempts (s : HealingState)
    (t : Option String) : (applyRefreshedToken s t).attempts =
      s.attempts := by
  cases t <;> rfl

theorem applyRefreshedToken_cyclesUsed (s : HealingState)
    (t : Option String) : (applyRefreshedToken s t).cyclesUsed =
      s.cyclesUsed := by
  cases t <;> rfl

theorem applyRefreshedToken_interventions (s : HealingState)
    (t : Option String) : (applyRefreshedToken s t).interventions =
      s.interventions := by
  cases t <;> rfl

theorem applyRefreshedToken_maxCycles (s : HealingState)
    (t : Option String) : (applyRefreshedToken s t).maxCycles =
      s.maxCycles := by
  cases t <;> rfl

theorem applyRefreshedToken_schemaHints (s : HealingState)
    (t : Option String) : (applyRefreshedToken s t).schemaHints =
      s.schemaHints := by
  cases t <;> rfl

theorem ensureRepairAllowance_blocked {st : HealingState}
    {rw : Option RepairWindow} {now : Int} {st' : HealingState}
    {i : HealingIntervention}
    (h : ensureRepairAllowance st rw now = .blocked st' i) :
    st'.attempts = st.attempts ∧ st'.interventions = st.interventions ∧
      st'.maxCycles = st.maxCycles ∧ st'.cyclesUsed = st.maxCycles ∧
      i.action = "abort" := by
  unfold ensureRepairAllowance at h
  split at h
  · rw [RepairGuardResult.blocked.injEq] at h
    rw [← h.1, ← h.2]
    exact ⟨rfl, rfl, rfl, rfl, rfl⟩
  · split at h
    · cases h
    · split at h
      · cases h
      · split at h
        · rw [RepairGuardResult.blocked.injEq] at h
          rw [← h.1, ← h.2]
          exact ⟨rfl, rfl, rfl, rfl, rfl⟩
        · cases h

set_option maxHeartbeats 1000000 in
theorem executeAction_book (a : Option Json) (st : HealingState)
    (ctx : ToolkitContext) (p : Json) (k : Nat) (env : AgentEnv)
    (rw : Option RepairWindow) :
    (executeAction a st ctx p k env rw).updatedState.attempts =
        st.attempts ∧
      (executeAction a st ctx p k env rw).updatedState.interventions =
        st.interventions ∧
      (executeAction a st ctx p k env rw).updatedState.maxCycles =
        st.maxCycles ∧
      ((executeAction a st ctx p k env rw).updatedState.cyclesUsed =
          st.cyclesUsed ∨
        ((executeAction a st ctx p k env rw).updatedState.cyclesUsed =
            st.maxCycles ∧
          (executeAction a st ctx p k env rw).intervention.action =
            "abort")) := by
  rw [executeAction]
  repeat' split
  all_goals first
    | exact ⟨rfl, rfl, rfl, Or.inl rfl⟩
    | exact ⟨rfl, rfl, rfl, Or.inr ⟨rfl, rfl⟩⟩
    | (refine ⟨?_, ?_, ?_, Or.inl ?_⟩ <;> (dsimp only; split <;> rfl))
    | (rename_i heq
       obtain ⟨h1, h2, h3, h4, h5⟩ := ensureRepairAllowance_blocked heq
       exact ⟨h1, h2, h3, Or.inr ⟨h4, h5⟩⟩)

theorem successState_attempts (s : HealingState) (c : String)
    (n : Option Json) (d : DegradedResponse) :
    (successState s c n d).attempts = s.attempts := rfl

theorem successState_cyclesUsed (s : HealingState) (c : String)
    (n : Option Json) (d : DegradedResponse) :
    (successState s c n d).cyclesUsed = s.cyclesUsed := rfl

theorem successState_interventions (s : HealingState) (c : String)
    (n : Option Json) (d : DegradedResponse) :
    (successState s c n d).interventions = s.interventions := rfl

theorem observeState_attempts (s : HealingState)
    (o : HealingObservation) (c : String) (u : Option HealthStatus) :
    (observeState s o c u).attempts = s.attempts ++ [o] := rfl

theorem observeState_cyclesUsed (s : HealingState)
    (o : HealingObservation) (c : String) (u : Option HealthStatus) :
    (observeState s o c u).cyclesUsed = s.cyclesUsed + 1 := rfl

theorem observeState_interventions (s : HealingState)
    (o : HealingObservation) (c : String) (u : Option HealthStatus) :
    (observeState s o c u).interventions = s.interventions := rfl

theorem observeState_maxCycles (s : HealingState)
    (o : HealingObservation) (c : String) (u : Option HealthStatus) :
    (observeState s o c u).maxCycles = s.maxCycles := rfl

theorem logDecision_attempts (s : HealingState) (c : Nat) (d : Json) :
    (logDecision s c d).attempts = s.attempts := rfl

theorem logDecision_cyclesUsed (s : HealingState) (c : Nat) (d : Json) :
    (logDecision s c d).cyclesUsed = s.cyclesUsed := rfl

theorem logDecision_interventions (s : HealingState) (c : Nat)
    (d : Json) : (logDecision s c d).interventions = s.interventions := rfl

theorem logDecision_maxCycles (s : HealingState) (c : Nat) (d : Json) :
    (logDecision s c d).maxCycles = s.maxCycles := rfl

theorem runHealingAgentFinish_book (env : AgentEnv)
    (config : Option DegradationConfig) (url : String)
    (state : HealingState) (rw : Option RepairWindow)
    (cache : List (String × CacheEntry)) (queued : List QueueEnvelope) :
    (runHealingAgentFinish env config url state rw cache
        queued).result.state.attempts = state.attempts ∧
      (runHealingAgentFinish env config url state rw cache
        queued).result.state.cyclesUsed = state.cyclesUsed ∧
      (runHealingAgentFinish env config url state rw cache
        queued).result.state.interventions = state.interventions := by
  rw [runHealingAgentFinish]
  split <;> exact ⟨rfl, rfl, rfl⟩

theorem afterExec_inv (a : Option Json) (st2 : HealingState)
    (ctx : ToolkitContext) (p : Json) (k : Nat) (env : AgentEnv)
    (rw : Option RepairWindow)
    (h1 : st2.attempts.length ≤ st2.cyclesUsed)
    (h2 : (st2.interventions.all fun i => i.action ≠ "abort") = true →
      st2.attempts.length = st2.cyclesUsed)
    (h3 : st2.attempts.length ≤ st2.maxCycles) :
    (afterExec (executeAction a st2 ctx p k env rw)).attempts.length ≤
        (afterExec (executeAction a st2 ctx p k env rw)).cyclesUsed ∧
      (((afterExec (executeAction a st2 ctx p k env
            rw)).interventions.all fun i => i.action ≠ "abort") = true →
        (afterExec (executeAction a st2 ctx p k env rw)).attempts.length =
          (afterExec (executeAction a st2 ctx p k env rw)).cyclesUsed) := by
  obtain ⟨b1, b2, b3, b4⟩ := executeAction_book a st2 ctx p k env rw
  constructor
  · show (executeAction a st2 ctx p k env rw).updatedState.attempts.length ≤
      (executeAction a st2 ctx p k env rw).updatedState.cyclesUsed
    rw [b1]
    rcases b4 with e | ⟨e, _⟩
    · rw [e]
      exact h1
    · rw [e]
      exact h3
  · intro hall
    have hall' : ((executeAction a st2 ctx p k env
        rw).updatedState.interventions ++
          [(executeAction a st2 ctx p k env rw).intervention]).all
        (fun i => i.action ≠ "abort") = true := hall
    rw [List.all_append, Bool.and_eq_true] at hall'
    have hx : ((executeAction a st2 ctx p k env
        rw).intervention.action ≠ "abort") := by
      have := hall'.2
      rw [List.all_cons, List.all_nil, Bool.and_eq_true] at this
      exact of_decide_eq_true this.1
    show (executeAction a st2 ctx p k env rw).updatedState.attempts.length =
      (executeAction a st2 ctx p k env rw).updatedState.cyclesUsed
    rcases b4 with e | ⟨e, ha⟩
    · rw [b1, e]
      refine h2 ?_
      rw [← b2]
      exact hall'.1
    · exact absurd ha hx

set_option maxHeartbeats 1000000 in
theorem runHealingAgentGo_inv (env : AgentEnv)
    (config : Option DegradationConfig) (url bb : String) :
    ∀ (fuel k : Nat) (state : HealingState) (rw : Option RepairWindow)
      (cache : List (String × CacheEntry)) (queued : List QueueEnvelope),
      state.attempts.length ≤ state.cyclesUsed →
      ((state.interventions.all fun i => i.action ≠ "abort") = true →
        state.attempts.length = state.cyclesUsed) →
      (runHealingAgentGo env config url bb fuel k state rw cache
          queued).result.state.attempts.length ≤
          (runHealingAgentGo env config url bb fuel k state rw cache
            queued).result.state.cyclesUsed ∧
        (((runHealingAgentGo env config url bb fuel k state rw cache
            queued).result.state.interventions.all
              fun i => i.action ≠ "abort") = true →
          (runHealingAgentGo env config url bb fuel k state rw cache
            queued).result.state.attempts.length =
            (runHealingAgentGo env config url bb fuel k state rw cache
              queued).result.state.cyclesUsed)
  | 0, k, state, rw, cache, queued => fun h1 h2 => by
    obtain ⟨f1, f2, f3⟩ :=
      runHealingAgentFinish_book env config url state rw cache queued
    rw [runHealingAgentGo, f1, f2, f3]
    exact ⟨h1, h2⟩
  | fuel + 1, k, state, rw, cache, queued => fun h1 h2 => by
    rw [runHealingAgentGo]
    split
    · rename_i hcond
      dsimp only
      split
      · -- transport success
        rename_i herr
        show (successState (applyRefreshedToken state
            (env.refreshedToken k)) _ _ _).attempts.length ≤ _ ∧ _
        rw [successState_attempts, successState_cyclesUsed,
          successState_interventions, applyRefreshedToken_attempts,
          applyRefreshedToken_cyclesUsed,
          applyRefreshedToken_interventions]
        exact ⟨h1, h2⟩
      · -- transport error
        rename_i err herr
        have hP := afterExec_inv ((env.planner k).objGet "action")
          (logDecision
            (observeState (applyRefreshedToken state
              (env.refreshedToken k))
              ⟨(applyRefreshedToken state (env.refreshedToken k)).cyclesUsed,
                (env.transport k).meta, some err, env.nowIso k, err.body⟩
              (match findRegionByEndpoint
                  ((state.regions.get? state.regionIndex).getD "") with
                | some n => n.id
                | none => (state.regions.get? state.regionIndex).getD "")
              (if err.status = some 410 then some HealthStatus.deprecated
                else if err.status = some 503 ∨ err.status = some 429 then
                  some HealthStatus.unhealthy
                else none))
            (applyRefreshedToken state (env.refreshedToken k)).cyclesUsed
            (env.planner k))
          ⟨bb,
            (logDecision
            (observeState (applyRefreshedToken state
              (env.refreshedToken k))
              ⟨(applyRefreshedToken state (env.refreshedToken k)).cyclesUsed,
                (env.transport k).meta, some err, env.nowIso k, err.body⟩
              (match findRegionByEndpoint
                  ((state.regions.get? state.regionIndex).getD "") with
                | some n => n.id
                | none => (state.regions.get? state.regionIndex).getD "")
              (if err.status = some 410 then some HealthStatus.deprecated
                else if err.status = some 503 ∨ err.status = some 429 then
                  some HealthStatus.unhealthy
                else none))
            (applyRefreshedToken state (env.refreshedToken k)).cyclesUsed
            (env.planner k)).requestId,
            (logDecision
            (observeState (applyRefreshedToken state
              (env.refreshedToken k))
              ⟨(applyRefreshedToken state (env.refreshedToken k)).cyclesUsed,
                (env.transport k).meta, some err, env.nowIso k, err.body⟩
              (match findRegionByEndpoint
                  ((state.regions.get? state.regionIndex).getD "") with
                | some n => n.id
                | none => (state.regions.get? state.regionIndex).getD "")
              (if err.status = some 410 then some HealthStatus.deprecated
                else if err.status = some 503 ∨ err.status = some 429 then
                  some HealthStatus.unhealthy
                else none))
            (applyRefreshedToken state (env.refreshedToken k)).cyclesUsed
            (env.planner k)).correlationId⟩
          (((env.planner k).objGet "params").getD (Json.obj [])) k env rw
          (by
            rw [logDecision_attempts, logDecision_cyclesUsed,
              observeState_attempts, observeState_cyclesUsed,
              applyRefreshedToken_attempts, applyRefreshedToken_cyclesUsed,
              List.length_append, List.length_singleton]
            omega)
          (by
            intro hall
            rw [logDecision_attempts, logDecision_cyclesUsed,
              observeState_attempts, observeState_cyclesUsed,
              applyRefreshedToken_attempts, applyRefreshedToken_cyclesUsed,
              List.length_append, List.length_singleton]
            rw [logDecision_interventions, observeState_interventions,
              applyRefreshedToken_interventions] at hall
            rw [h2 hall])
          (by
            rw [logDecision_attempts, logDecision_maxCycles,
              observeState_attempts, observeState_maxCycles,
              applyRefreshedToken_attempts, applyRefreshedToken_maxCycles,
              List.length_append, List.length_singleton]
            omega)
        split
        · exact hP
        · split
          · obtain ⟨f1, f2, f3⟩ := runHealingAgentFinish_book env config
              url _ _ cache _
            rw [f1, f2, f3]
            exact hP
          · exact runHealingAgentGo_inv env config url bb fuel (k + 1)
              _ _ cache _ hP.1 hP.2
    · obtain ⟨f1, f2, f3⟩ :=
        runHealingAgentFinish_book env config url state rw cache queued
      rw [f1, f2, f3]
      exact ⟨h1, h2⟩

/-- C1 (amended): the returned state always satisfies
`attempts.length ≤ cyclesUsed`, with equality whenever no `abort`
intervention was recorded; the `abort` action (and the repair guard's
abort) sets `cyclesUsed := maxCycles` without appending an attempt, which
breaks the claimed equality. -/
theorem c1_attempts_equal_cycles_amended (params : HealingAgentParams) (env : AgentEnv)
    (rw : Option RepairWindow) (cache : List (String × CacheEntry)) :
    (runHealingAgent params env rw
        cache).result.state.attempts.length ≤
        (runHealingAgent params env rw cache).result.state.cyclesUsed ∧
      (((runHealingAgent params env rw
          cache).result.state.interventions.all
            fun i => i.action ≠ "abort") = true →
        (runHealingAgent params env rw
          cache).result.state.attempts.length =
          (runHealingAgent params env rw
            cache).result.state.cyclesUsed) := by
  rw [runHealingAgent]
  exact runHealingAgentGo_inv env params.degradation params.url
    params.backendBaseUrl _ 0 _ rw cache [] (Nat.le_refl 0)
    (fun _ => rfl)

theorem pipeline_disabled (config : Option DegradationConfig)
    (h1 : config.bind (fun c => c.enableStaleCache) = some false)
    (h2 : config.bind (fun c => c.enableMock) = some false) :
    ∀ (cacheKey : String) (lastError : Option FetchError)
      (store : List (String × CacheEntry)) (env : AgentEnv),
      applyDegradationPipeline config cacheKey lastError store env =
        none := by
  intro cacheKey lastError store env
  simp [applyDegradationPipeline, h1, h2]

theorem runHealingAgentFinish_success_disabled (env : AgentEnv)
    (config : Option DegradationConfig) (url : String)
    (state : HealingState) (rw : Option RepairWindow)
    (cache : List (String × CacheEntry)) (queued : List QueueEnvelope)
    (h1 : config.bind (fun c => c.enableStaleCache) = some false)
    (h2 : config.bind (fun c => c.enableMock) = some false) :
    (runHealingAgentFinish env config url state rw cache
      queued).result.success = false := by
  have hpipe := pipeline_disabled config h1 h2
  simp only [runHealingAgentFinish, hpipe]

set_option maxHeartbeats 1000000 in
theorem runHealingAgentGo_success_none (env : AgentEnv)
    (config : Option DegradationConfig) (url bb : String)
    (h1 : config.bind (fun c => c.enableStaleCache) = some false)
    (h2 : config.bind (fun c => c.enableMock) = some false)
    (hplanner : ∀ k, (env.planner k).objGet "action" ≠
      some (Json.str "use_mock")) :
    ∀ (fuel k : Nat) (state : HealingState) (rw : Option RepairWindow)
      (cache : List (String × CacheEntry)) (queued : List QueueEnvelope),
      (runHealingAgentGo env config url bb fuel k state rw cache
          queued).result.success = true →
      (runHealingAgentGo env config url bb fuel k state rw cache
        queued).result.degraded.degradation = "none"
  | 0, k, state, rw, cache, queued => by
    rw [runHealingAgentGo]
    intro h
    rw [runHealingAgentFinish_success_disabled env config url state rw
      cache queued h1 h2] at h
    cases h
  | fuel + 1, k, state, rw, cache, queued => by
    rw [runHealingAgentGo]
    split
    · dsimp only
      split
      · intro _
        rfl
      · split
        · rename_i hmock
          exact absurd hmock (hplanner k)
        · split
          · intro h
            rw [runHealingAgentFinish_success_disabled env config url _ _
              cache _ h1 h2] at h
            cases h
          · exact runHealingAgentGo_success_none env config url bb h1 h2
              hplanner fuel (k + 1) _ _ cache _
    · intro h
      rw [runHealingAgentFinish_success_disabled env config url state rw
        cache queued h1 h2] at h
      cases h

/-- C8 (amended): success implies degradation `'none'` only when the
`use_mock` action can not fire and the degradation pipeline is disabled;
under those hypotheses every `success = true` result carries
`degradation = "none"`. -/
theorem c8_success_degradation_amended (params : HealingAgentParams) (env : AgentEnv)
    (rw : Option RepairWindow) (cache : List (String × CacheEntry))
    (dc : DegradationConfig) (hdc : params.degradation = some dc)
    (hsc : dc.enableStaleCache = some false)
    (hmk : dc.enableMock = some false)
    (hplanner : ∀ k, (env.planner k).objGet "action" ≠
      some (Json.str "use_mock")) :
    (runHealingAgent params env rw cache).result.success = true →
    (runHealingAgent params env rw
      cache).result.degraded.degradation = "none" := by
  rw [runHealingAgent]
  refine runHealingAgentGo_success_none env params.degradation params.url
    params.backendBaseUrl ?_ ?_ hplanner _ 0 _ rw cache []
  · rw [hdc]
    exact hsc
  · rw [hdc]
    exact hmk

/-- C1 counterexample: a 500 answer on cycle 0 followed by an `abort`
decision returns a state with one attempt but `cyclesUsed = 6`
(`maxCycles`), so `len(attempts) == cycles_used` fails. -/
theorem c1_attempts_equal_cycles_counterexample :
    (runHealingAgent
        ⟨"/external-api", ⟨none, none, none⟩, some ["r1"], some "req-1",
          some "corr-1", none, "http://backend",
          some ⟨none, some false, none, some false, none, none⟩⟩
        ⟨fun _ => ⟨none, ⟨[], 0, "default", [], [], "corr-1"⟩,
            some ⟨some 500, "Request failed with status 500", none⟩⟩,
          fun _ => none,
          fun _ => Json.obj [("action", Json.str "abort"),
            ("reason", Json.str "stop")],
          fun _ => "k", fun _ => ⟨none, "mocked", none, none, none⟩,
          none, fun _ => none, fun _ => 0, fun _ => "t", 0, "req-g",
          "tok"⟩
        none []).result.state.attempts.length = 1 ∧
      (runHealingAgent
        ⟨"/external-api", ⟨none, none, none⟩, some ["r1"], some "req-1",
          some "corr-1", none, "http://backend",
          some ⟨none, some false, none, some false, none, none⟩⟩
        ⟨fun _ => ⟨none, ⟨[], 0, "default", [], [], "corr-1"⟩,
            some ⟨some 500, "Request failed with status 500", none⟩⟩,
          fun _ => none,
          fun _ => Json.obj [("action", Json.str "abort"),
            ("reason", Json.str "stop")],
          fun _ => "k", fun _ => ⟨none, "mocked", none, none, none⟩,
          none, fun _ => none, fun _ => 0, fun _ => "t", 0, "req-g",
          "tok"⟩
        none []).result.state.cyclesUsed = 6 ∧ (1 : Nat) ≠ 6 := by
  decide

/-- C8 counterexample: a 402 answer followed by a `use_mock` decision
returns `success = true` with `degradation = "mocked"`. -/
theorem c8_success_degradation_counterexample :
    (runHealingAgent
        ⟨"/external-api", ⟨none, none, none⟩, some ["r1"], some "req-1",
          some "corr-1", none, "http://backend", none⟩
        ⟨fun _ => ⟨none, ⟨[], 0, "default", [], [], "corr-1"⟩,
            some ⟨some 402, "Request failed with status 402", none⟩⟩,
          fun _ => none,
          fun _ => Json.obj [("action", Json.str "use_mock"),
            ("reason", Json.str "degrade")],
          fun _ => "k",
          fun _ => ⟨some (Json.str "mock-data"), "mocked",
            some "mock served", some "llm-mock", none⟩,
          none, fun _ => none, fun _ => 0, fun _ => "t", 0, "req-g",
          "tok"⟩
        none []).result.success = true ∧
      (runHealingAgent
        ⟨"/external-api", ⟨none, none, none⟩, some ["r1"], some "req-1",
          some "corr-1", none, "http://backend", none⟩
        ⟨fun _ => ⟨none, ⟨[], 0, "default", [], [], "corr-1"⟩,
            some ⟨some 402, "Request failed with status 402", none⟩⟩,
          fun _ => none,
          fun _ => Json.obj [("action", Json.str "use_mock"),
            ("reason", Json.str "degrade")],
          fun _ => "k",
          fun _ => ⟨some (Json.str "mock-data"), "mocked",
            some "mock served", some "llm-mock", none⟩,
          none, fun _ => none, fun _ => 0, fun _ => "t", 0, "req-g",
          "tok"⟩
        none []).result.degraded.degradation = "mocked" ∧
      ("mocked" : String) ≠ "none" := by
  decide

/-- C8 witness: a first-cycle transport success under a disabled
pipeline and a planner that never picks `use_mock` yields degradation
`"none"`. -/
theorem c8_success_degradation_witness :
    (runHealingAgent
        ⟨"/external-api", ⟨none, none, none⟩, some ["r1"], some "req-1",
          some "corr-1", none, "http://backend",
          some ⟨none, some false, none, some false, none, none⟩⟩
        ⟨fun _ => ⟨some (Json.str "ok"),
            ⟨[], 0, "default", [], [], "corr-1"⟩, none⟩,
          fun _ => none,
          fun _ => Json.obj [("action", Json.str "retry"),
            ("reason", Json.str "again")],
          fun _ => "k", fun _ => ⟨none, "mocked", none, none, none⟩,
          none, fun _ => none, fun _ => 0, fun _ => "t", 0, "req-g",
          "tok"⟩
        none []).result.degraded.degradation = "none" :=
  (c8_success_degradation_amended
    ⟨"/external-api", ⟨none, none, none⟩, some ["r1"], some "req-1",
      some "corr-1", none, "http://backend",
      some ⟨none, some false, none, some false, none, none⟩⟩
    ⟨fun _ => ⟨some (Json.str "ok"),
        ⟨[], 0, "default", [], [], "corr-1"⟩, none⟩,
      fun _ => none,
      fun _ => Json.obj [("action", Json.str "retry"),
        ("reason", Json.str "again")],
      fun _ => "k", fun _ => ⟨none, "mocked", none, none, none⟩,
      none, fun _ => none, fun _ => 0, fun _ => "t", 0, "req-g",
      "tok"⟩
    none [] ⟨none, some false, none, some false, none, none⟩ rfl rfl rfl
    (fun _ => by
      show Json.objGet (Json.obj [("action", Json.str "retry"),
        ("reason", Json.str "again")]) "action" ≠
        some (Json.str "use_mock")
      decide)) (by decide)
